import Mathlib

/-!
Verification of the consent-gated selective-disclosure engine of the
capacitor repository (Travlr-ID backend).  The Python endpoints and
services under `src/backend/app` are shallowly embedded: FastAPI
endpoint bodies become pure Lean functions over an explicit database
state, SQLAlchemy rows become structures, `datetime.utcnow()` becomes a
`Nat` parameter `now`, and `raise HTTPException(code, detail)` becomes
an `Except HErr` error value carrying the same status code and detail
string.  External collaborators (KERIA, PyNaCl, `cryptography.fernet`,
`json`) are parameters of the embedding, constrained only by their
documented library contracts.
-/

/-- An HTTP error raised by an endpoint (`HTTPException(status_code, detail)`). -/
structure HErr where
  status_code : Nat
  detail : String
deriving DecidableEq, Repr

/-- Minimal JSON value type for the Python dict/list/str payloads used by the
endpoints (`sample_employee_data`, travel data, context-card content). -/
inductive Json where
  | s (v : String)
  | n (v : Nat)
  | b (v : Bool)
  | obj (fields : List (String × Json))
  | arr (elems : List Json)

/-- Dict lookup `d.get(key)` on a JSON object; `none` on non-objects. -/
def jsonLookup (j : Json) (key : String) : Option Json :=
  match j with
  | .obj fields => (fields.find? (fun kv => kv.1 == key)).map (fun kv => kv.2)
  | _ => none

/-- Python `len(value)`: number of entries of a dict, elements of a list, or
characters of a string.  (On numbers/booleans CPython raises `TypeError`;
those cases never occur in the embedded data and are mapped to 0.) -/
def jsonSize (j : Json) : Nat :=
  match j with
  | .obj fields => fields.length
  | .arr elems => elems.length
  | .s v => v.length
  | _ => 0

/-- Mutate the first element of a list satisfying `p` (the SQLAlchemy
`query(...).filter(...).first()` object that the endpoint then mutates
in place before `db.commit()`). -/
def updateFirst (p : α → Bool) (f : α → α) : List α → List α
  | [] => []
  | x :: xs => if p x then f x :: xs else x :: updateFirst p f xs

/-- `core/keri_utils.py` `validate_aid_format`: an AID is a string starting
with `E` (Python `aid.startswith('E')`, i.e. its first character is `E`)
of length 45.  The endpoint modules import this check under the name
`validate_aid`; we use the single definition for both names. -/
def validate_aid_format (aid : String) : Bool :=
  aid.data.head? == some 'E' && aid.length == 45

/-- The name under which the endpoints call the AID format check. -/
def validate_aid (aid : String) : Bool := validate_aid_format aid

/-! ## Consent workflow (`api/v1/endpoints/consent_workflow.py`) -/

/-- The `status` column of a `ConsentRecord`
(`"pending" | "approved" | "denied" | "expired" | "revoked"`). -/
inductive CStatus where
  | pending | approved | denied | expired | revoked
deriving DecidableEq, Repr

/-- String rendering of a status, as interpolated into detail messages. -/
def CStatus.str : CStatus → String
  | .pending => "pending"
  | .approved => "approved"
  | .denied => "denied"
  | .expired => "expired"
  | .revoked => "revoked"

/-- A row of the `consent_records` table (`models/database.py`). -/
structure ConsentRecord where
  request_id : String
  employee_aid : String
  company_aid : String
  requested_fields : List String
  approved_fields : Option (List String)
  purpose : String
  status : CStatus
  company_public_key : String
  created_at : Nat
  approved_at : Option Nat
  denied_at : Option Nat
  revoked_at : Option Nat
  expires_at : Nat
  denial_reason : Option String
  context_card_said : Option String
  employee_signature : Option String
deriving DecidableEq, Repr

/-- A context-card credential as stored in the module-level
`credential_store` dict of `consent_workflow.py`. -/
structure ContextCardData where
  encryptedContent : String
  approvedFields : List String
  purpose : String
  approvedAt : Nat
  employeeSignature : String
  issuer : String
  recipient : String
  schemaSaid : String
deriving DecidableEq, Repr

/-- A row of the `context_cards` table (`models/context_cards.py`); only the
fields relevant to revocation/read checks are kept. -/
structure ContextCardRow where
  card_said : String
  employee_aid : String
  company_aid : String
  is_active : Bool
deriving DecidableEq, Repr

/-- The persistent state touched by the consent-workflow endpoints: the
`consent_records` table, the in-process `credential_store` dict, and the
`context_cards` table (present in the database; the workflow endpoints
never write it — `revoke_consent` carries a TODO to revoke the card). -/
structure WorkflowState where
  records : List ConsentRecord
  credential_store : List (String × ContextCardData)
  context_cards : List ContextCardRow
deriving DecidableEq, Repr

/-- Replace the record matched by `request_id` in a state, leaving the
other tables untouched. -/
def updateRecord (rid : String) (f : ConsentRecord → ConsentRecord) (st : WorkflowState) :
    WorkflowState :=
  { st with records := updateFirst (fun r => r.request_id == rid) f st.records }

/-- Request body of `POST /consent/request` (`ConsentRequest` model). -/
structure ConsentRequest where
  company_aid : String
  employee_aid : String
  requested_fields : List String
  purpose : String
  company_public_key : String
  expires_hours : Nat
deriving DecidableEq, Repr

/-- Request body of `POST /consent/approve` (`ConsentApproval` model). -/
structure ConsentApproval where
  request_id : String
  approved_fields : List String
  employee_signature : String
  context_card_said : String
deriving DecidableEq, Repr

/-- `create_consent_request`: validates both AIDs, then inserts a fresh
`pending` record with `expires_at = now + hours`.  `request_id` is a
`uuid4` generated by the endpoint, passed in here as `newId`; the
`request_id` column is declared `unique`, so an insert with a duplicate
id fails at the database layer (modelled as a 500). -/
def create_consent_request (now : Nat) (newId : String) (request : ConsentRequest)
    (st : WorkflowState) : Except HErr String × WorkflowState :=
  if !validate_aid request.company_aid then
    (.error ⟨400, "Invalid company AID format"⟩, st)
  else if !validate_aid request.employee_aid then
    (.error ⟨400, "Invalid employee AID format"⟩, st)
  else if (st.records.find? (fun r => r.request_id == newId)).isSome then
    (.error ⟨500, "UNIQUE constraint failed: consent_records.request_id"⟩, st)
  else
    let record : ConsentRecord :=
      { request_id := newId
        company_aid := request.company_aid
        employee_aid := request.employee_aid
        requested_fields := request.requested_fields
        approved_fields := none
        purpose := request.purpose
        status := .pending
        company_public_key := request.company_public_key
        created_at := now
        approved_at := none
        denied_at := none
        revoked_at := none
        expires_at := now + request.expires_hours * 3600
        denial_reason := none
        context_card_said := none
        employee_signature := none }
    (.ok newId, { st with records := st.records ++ [record] })

/-- The literal travel data the approve endpoint builds for the approved
fields before attempting to encrypt it. -/
def buildTravelData (approved_fields : List String) : List (String × Json) :=
  (if approved_fields.contains "dietary" then
    [("dietaryRequirements", Json.s "Vegetarian")] else []) ++
  (if approved_fields.contains "emergency_contact" then
    [("emergencyContact", Json.s "+46-123-456-789")] else []) ++
  (if approved_fields.contains "flight_preferences" then
    [("flightPreferences", Json.obj
      [("seatPreference", Json.s "Aisle"), ("mealPreference", Json.s "Vegetarian")])] else [])

/-- The attribute `company_encryption_service._mock_encrypt_for_employee`
called at `consent_workflow.py:215`.  `CompanyEncryptionService`
(`services/company_encryption_service.py`) defines `generate_company_keypair`,
`store_employee_public_key`, `encrypt_data_for_employee`,
`decrypt_data_from_employee`, `get_company_public_key`,
`verify_encrypted_data_integrity`, `_require_pynacl`,
`initialize_company_keys` and `get_encryption_stats`, but no method of this
name, so the attribute lookup raises `AttributeError` at call time; the
absent attribute is modelled as `none`. -/
def mock_encrypt_for_employee : Option (List (String × Json) → String → String) := none

/-- The context-card creation attempt inside the `try` block of the approve
endpoint: looking up the missing attribute raises before any encryption
can happen. -/
def contextCardEncryptAttempt (travel_data : List (String × Json)) (employee_aid : String) :
    Except String String :=
  match mock_encrypt_for_employee with
  | none => .error "AttributeError: _mock_encrypt_for_employee"
  | some f => .ok (f travel_data employee_aid)

/-- Dict assignment `store[k] = v` (replace if present, else append). -/
def storePut (store : List (String × ContextCardData)) (k : String) (v : ContextCardData) :
    List (String × ContextCardData) :=
  if (store.find? (fun kv => kv.1 == k)).isSome then
    store.map (fun kv => if kv.1 == k then (k, v) else kv)
  else
    store ++ [(k, v)]

/-- `approve_consent_request` (`POST /consent/approve`).  Guard order as in
the source: 404 if unknown; 400 if no longer `pending`; if `expires_at`
has passed, commit the lazy transition to `expired` and raise; 400 if the
approved fields are not a subset of the requested ones.  Then the
context-card creation `try` block runs: building the travel data and
calling the (absent) mock-encryption attribute; on any exception the
`except` clause logs and continues, keeping the caller-supplied
`context_card_said`.  Finally the record is committed as `approved`.
(The endpoint's blanket `except Exception` re-raises any `HTTPException`
as a 500 whose detail embeds the original message; the guards below keep
the original code/detail, which identifies the failure uniquely.) -/
def approve_consent_request (now : Nat) (approval : ConsentApproval) (st : WorkflowState) :
    Except HErr String × WorkflowState :=
  match st.records.find? (fun r => r.request_id == approval.request_id) with
  | none => (.error ⟨404, "Consent request not found"⟩, st)
  | some consent_record =>
    if consent_record.status ≠ .pending then
      (.error ⟨400, "Request already " ++ consent_record.status.str⟩, st)
    else if consent_record.expires_at ≤ now then
      (.error ⟨400, "Consent request has expired"⟩,
        updateRecord approval.request_id (fun r => { r with status := .expired }) st)
    else if !approval.approved_fields.all (fun f => consent_record.requested_fields.contains f) then
      (.error ⟨400, "Approved fields must be subset of requested fields"⟩, st)
    else
      let travel_data := buildTravelData approval.approved_fields
      let credStore :=
        match contextCardEncryptAttempt travel_data consent_record.employee_aid with
        | .ok encrypted_content =>
          let context_card_data : ContextCardData :=
            { encryptedContent := encrypted_content
              approvedFields := approval.approved_fields
              purpose := consent_record.purpose
              approvedAt := now
              employeeSignature := approval.employee_signature
              issuer := consent_record.employee_aid
              recipient := consent_record.company_aid
              schemaSaid := "EContextTravelCardSchema123456789012345" }
          storePut st.credential_store approval.context_card_said context_card_data
        | .error _ => st.credential_store
      -- in both branches real_context_card_said is the caller-supplied SAID
      let real_context_card_said := approval.context_card_said
      let st' := updateRecord approval.request_id (fun r =>
        { r with status := .approved
                 approved_fields := some approval.approved_fields
                 context_card_said := some real_context_card_said
                 employee_signature := some approval.employee_signature
                 approved_at := some now }) st
      (.ok "approved", { st' with credential_store := credStore })

/-- `deny_consent_request` (`POST /consent/deny/:request_id`).  Note: the
source checks only that the record is still `pending`; it performs no
`expires_at` comparison and no lazy expiry transition. -/
def deny_consent_request (now : Nat) (request_id : String) (reason : Option String)
    (st : WorkflowState) : Except HErr String × WorkflowState :=
  match st.records.find? (fun r => r.request_id == request_id) with
  | none => (.error ⟨404, "Consent request not found"⟩, st)
  | some consent_record =>
    if consent_record.status ≠ .pending then
      (.error ⟨400, "Request already " ++ consent_record.status.str⟩, st)
    else
      (.ok "denied",
        updateRecord request_id (fun r =>
          { r with status := .denied, denial_reason := reason, denied_at := some now }) st)

/-- The response model of `GET /consent/status/:request_id`. -/
structure ConsentStatusResp where
  request_id : String
  status : CStatus
  created_at : Nat
  expires_at : Nat
  approved_fields : Option (List String)
  context_card_said : Option String
deriving DecidableEq, Repr

/-- `get_consent_status`: a read that performs the lazy expiry transition on
a `pending` record whose `expires_at` has passed, committing it before
answering. -/
def get_consent_status (now : Nat) (request_id : String) (st : WorkflowState) :
    Except HErr ConsentStatusResp × WorkflowState :=
  match st.records.find? (fun r => r.request_id == request_id) with
  | none => (.error ⟨404, "Consent request not found"⟩, st)
  | some consent_record =>
    let record' := if consent_record.status == .pending && consent_record.expires_at ≤ now then
        { consent_record with status := .expired } else consent_record
    let st' := if consent_record.status == .pending && consent_record.expires_at ≤ now then
        updateRecord request_id (fun r => { r with status := .expired }) st else st
    (.ok { request_id := request_id
           status := record'.status
           created_at := record'.created_at
           expires_at := record'.expires_at
           approved_fields := record'.approved_fields
           context_card_said := record'.context_card_said }, st')

/-- `get_consent_data` (`GET /consent/data/:request_id`): read-only; errors
unless the record is `approved` and carries a context-card SAID.  It never
writes the database (no lazy expiry transition here). -/
def get_consent_data (request_id : String) (st : WorkflowState) :
    Except HErr (String × List String × String) × WorkflowState :=
  match st.records.find? (fun r => r.request_id == request_id) with
  | none => (.error ⟨404, "Consent request not found"⟩, st)
  | some consent_record =>
    if consent_record.status ≠ .approved then
      (.error ⟨400, "Request not approved (status: " ++ consent_record.status.str ++ ")"⟩, st)
    else
      match consent_record.context_card_said with
      | none => (.error ⟨404, "Context card not yet created"⟩, st)
      | some said =>
        (.ok (said, consent_record.approved_fields.getD [], consent_record.employee_aid), st)

/-- `revoke_consent` (`DELETE /consent/revoke/:request_id`): only an
`approved` record can be revoked; the status becomes `revoked` and
`revoked_at` is set.  The `context_cards` table and the credential store
are not touched (the source carries a TODO to also revoke the ACDC card). -/
def revoke_consent (now : Nat) (request_id : String) (st : WorkflowState) :
    Except HErr String × WorkflowState :=
  match st.records.find? (fun r => r.request_id == request_id) with
  | none => (.error ⟨404, "Consent request not found"⟩, st)
  | some consent_record =>
    if consent_record.status ≠ .approved then
      (.error ⟨400, "Can only revoke approved consents"⟩, st)
    else
      (.ok "revoked",
        updateRecord request_id (fun r =>
          { r with status := .revoked, revoked_at := some now }) st)

/-- One invocation of a consent-workflow endpoint. -/
inductive WfOp where
  | create (now : Nat) (newId : String) (request : ConsentRequest)
  | approve (now : Nat) (approval : ConsentApproval)
  | deny (now : Nat) (request_id : String) (reason : Option String)
  | revoke (now : Nat) (request_id : String)
  | readStatus (now : Nat) (request_id : String)
  | readData (request_id : String)
deriving DecidableEq, Repr

/-- The state reached after one endpoint invocation (result discarded). -/
def applyWfOp (st : WorkflowState) (op : WfOp) : WorkflowState :=
  match op with
  | .create now newId request => (create_consent_request now newId request st).2
  | .approve now approval => (approve_consent_request now approval st).2
  | .deny now request_id reason => (deny_consent_request now request_id reason st).2
  | .revoke now request_id => (revoke_consent now request_id st).2
  | .readStatus now request_id => (get_consent_status now request_id st).2
  | .readData request_id => (get_consent_data request_id st).2

/-- Run a sequence of endpoint invocations. -/
def runWfOps (ops : List WfOp) (st : WorkflowState) : WorkflowState :=
  ops.foldl applyWfOp st

/-- The empty database. -/
def initWorkflowState : WorkflowState :=
  { records := [], credential_store := [], context_cards := [] }

/-- The invariant of claim C1: an approved record's approved fields are a
subset of its requested fields. -/
def approvedSubsetOK (r : ConsentRecord) : Prop :=
  r.status = .approved →
    ∃ l, r.approved_fields = some l ∧ ∀ x ∈ l, x ∈ r.requested_fields

/-- The C1 invariant over a whole state. -/
def consentInvariant (st : WorkflowState) : Prop :=
  ∀ r ∈ st.records, approvedSubsetOK r

/-! ## Scania disclosure (`api/v1/endpoints/scania.py` and the consent
settings of `api/v1/endpoints/consent.py`) -/

/-- Employee consent settings (`ConsentSettings` model of `consent.py`). -/
structure ConsentSettings where
  share_with_scania : Bool
  share_flight_prefs : Bool
  share_hotel_prefs : Bool
  share_accessibility_needs : Bool
  share_emergency_contact : Bool
  ai_processing_consent : Bool
  data_retention_days : Nat
deriving DecidableEq, Repr

/-- An entry of the in-memory `consent_storage` dict keyed by employee id. -/
structure StoredConsent where
  active : Bool
  expires_at : Nat
  updated_at : Nat
  consent_settings : ConsentSettings
deriving DecidableEq, Repr

/-- Association-list lookup, the Python `dict.get`. -/
def alistGet (l : List (String × α)) (k : String) : Option α :=
  (l.find? (fun kv => kv.1 == k)).map (fun kv => kv.2)

/-- The `EmployeeTravelData` response model of `scania.py`. -/
structure EmployeeTravelData where
  employee_id : String
  data_available : Bool
  consent_status : String
  last_updated : Nat
  travel_preferences : Option (List (String × Json))
  disclosed_fields : List String
  data_classification : String

/-- The constant `sample_employee_data` of `scania.py`: the flight
preferences of employee SE12345. -/
def sample_flight_preferences : Json := .obj
  [("preferredAirlines", .arr [.s "SAS", .s "Lufthansa", .s "KLM"]),
   ("seatPreference", .s "aisle"),
   ("classPreference", .s "economy"),
   ("mealPreference", .s "vegetarian"),
   ("frequentFlyerNumbers", .obj
     [("SAS", .s "EuroBonus123456"), ("Lufthansa", .s "Miles789012")])]

/-- `sample_employee_data`: hotel preferences of employee SE12345. -/
def sample_hotel_preferences : Json := .obj
  [("preferredChains", .arr [.s "Scandic", .s "Radisson", .s "Hilton"]),
   ("roomType", .s "standard"),
   ("smokingPreference", .s "non-smoking"),
   ("loyaltyPrograms", .obj
     [("Scandic", .s "Scandic123456"), ("Radisson", .s "Radisson789012")])]

/-- `sample_employee_data`: the full record of employee SE12345. -/
def sample_employee_record : List (String × Json) :=
  [("employee_info", .obj
     [("employeeId", .s "SE12345"), ("fullName", .s "Erik Andersson"),
      ("department", .s "Fleet Operations"), ("costCenter", .s "FO-2024-001")]),
   ("flight_preferences", sample_flight_preferences),
   ("hotel_preferences", sample_hotel_preferences),
   ("accessibility_needs", .obj
     [("mobilityAssistance", .b false), ("wheelchairRequired", .b false),
      ("visualImpairment", .b false), ("hearingImpairment", .b false),
      ("specialRequests", .s "")]),
   ("emergency_contact", .obj
     [("name", .s "Anna Andersson"), ("relationship", .s "Spouse"),
      ("phone", .s "+46-70-123-4567"), ("email", .s "anna.andersson@email.com")])]

/-- The module-level `sample_employee_data` dict of `scania.py`. -/
def sample_employee_data : List (String × List (String × Json)) :=
  [("SE12345", sample_employee_record)]

/-- Character-list version of Python `needle in haystack` starting at the
head: does the haystack start with the needle? -/
def charsStartWith : List Char → List Char → Bool
  | [], _ => true
  | _ :: _, [] => false
  | a :: as, b :: bs => a == b && charsStartWith as bs

/-- Character-list substring containment, the Python `in` on strings. -/
def charsContain (needle : List Char) : List Char → Bool
  | [] => needle.isEmpty
  | b :: bs => charsStartWith needle (b :: bs) || charsContain needle bs

/-- Substring test, the Python `"ai" in client_id`. -/
def strContainsAI (client_id : String) : Bool :=
  charsContain "ai".data client_id.data

/-- Requester type derivation from the authenticated token's client id:
requester is `ai` exactly when the client id contains "ai". -/
def derive_requester_type (client_id : String) : String :=
  if strContainsAI client_id then "ai" else "admin"

/-- The `field_consent_mapping` dict built in `get_employee_travel_data`. -/
def field_consent_mapping (cs : ConsentSettings) : List (String × Bool) :=
  [("employee_info", cs.share_with_scania),
   ("flight_preferences", cs.share_flight_prefs),
   ("hotel_preferences", cs.share_hotel_prefs),
   ("accessibility_needs", cs.share_accessibility_needs),
   ("emergency_contact", cs.share_emergency_contact)]

/-- `field in mapping and mapping[field]`, also `mapping.get(field, False)`:
true exactly when the field is mapped to a category whose flag is true. -/
def fieldConsentGet (mapping : List (String × Bool)) (field : String) : Bool :=
  (alistGet mapping field).getD false

/-- Replace the value at `key` of a JSON object by a dict holding only the
count of its entries, as the AI anonymization does for one key; objects
without the key and non-objects are returned unchanged. -/
def objReplaceCount (key : String) (j : Json) : Json :=
  match j with
  | .obj fields =>
    if (fields.find? (fun kv => kv.1 == key)).isSome then
      .obj (fields.map (fun kv =>
        if kv.1 == key then (kv.1, Json.obj [("count", .n (jsonSize kv.2))]) else kv))
    else .obj fields
  | other => other

/-- The anonymization transform applied to each disclosed category for AI
requesters: the frequent-flyer-number and loyalty-program collections are
replaced by their entry counts. -/
def anonymize_for_ai (j : Json) : Json :=
  objReplaceCount "loyaltyPrograms" (objReplaceCount "frequentFlyerNumbers" j)

/-- Python dict subscript `employee_data[field]` on the per-employee category
dict.  Every field the disclosure loops subscript with is a key of
`field_consent_mapping`, and all five of those keys are present in
`sample_employee_data` for every employee, so the `KeyError` branch
(modelled by the empty-object default) is unreachable. -/
def dataSub (employee_data : List (String × Json)) (field : String) : Json :=
  (alistGet employee_data field).getD (.obj [])

/-- The AI disclosure loop (`for field in requested_fields` under
`requester_type == "ai"` with `ai_consent` true): a category is disclosed
only if it is flight or hotel preferences and its consent flag is true,
and its value is anonymized. -/
def aiDiscloseLoop (employee_data : List (String × Json)) (mapping : List (String × Bool)) :
    List String → List (String × Json) × List String
  | [] => ([], [])
  | field :: rest =>
    let tail := aiDiscloseLoop employee_data mapping rest
    if (field == "flight_preferences" || field == "hotel_preferences")
        && fieldConsentGet mapping field then
      ((field, anonymize_for_ai (dataSub employee_data field)) :: tail.1, field :: tail.2)
    else tail

/-- The admin disclosure loop (`for field in requested_fields` in the
non-AI branch): a category is disclosed, unmodified, exactly when it is
mapped and its consent flag is true. -/
def adminDiscloseLoop (employee_data : List (String × Json)) (mapping : List (String × Bool)) :
    List String → List (String × Json) × List String
  | [] => ([], [])
  | field :: rest =>
    let tail := adminDiscloseLoop employee_data mapping rest
    if fieldConsentGet mapping field then
      ((field, dataSub employee_data field) :: tail.1, field :: tail.2)
    else tail

/-- Parsing of the optional comma-separated `fields` query parameter of
`get_employee_travel_data`; absent means all five categories. -/
def parseFieldsParam (fields : Option String) : List String :=
  match fields with
  | some f => f.splitOn ","
  | none => ["employee_info", "flight_preferences", "hotel_preferences",
             "accessibility_needs", "emergency_contact"]

/-- `get_employee_travel_data` of `scania.py` (the consent-gated disclosure
endpoint) after the `fields` parameter has been parsed into the requested
field list; `client_id` comes from the verified bearer token
(`token_data["client_id"]`); `consent_storage` is the shared dict of
`consent.py`. -/
def get_employee_travel_data_core (now : Nat) (employee_id : String)
    (requested_fields : List String)
    (client_id : String) (consent_storage : List (String × StoredConsent)) :
    Except HErr EmployeeTravelData :=
  match alistGet sample_employee_data employee_id with
  | none => .error ⟨404, "Employee " ++ employee_id ++ " not found"⟩
  | some employee_data =>
    match alistGet consent_storage employee_id with
    | none =>
      .ok { employee_id := employee_id, data_available := false,
            consent_status := "no_consent", last_updated := now,
            travel_preferences := none, disclosed_fields := [],
            data_classification := "denied" }
    | some consent_record =>
      if !consent_record.active || consent_record.expires_at < now then
        let cstatus := if consent_record.expires_at < now then "expired" else "revoked"
        .ok { employee_id := employee_id, data_available := false,
              consent_status := cstatus, last_updated := consent_record.updated_at,
              travel_preferences := none, disclosed_fields := [],
              data_classification := "denied" }
      else
        let requester_type := derive_requester_type client_id
        let consent_settings := consent_record.consent_settings
        let mapping := field_consent_mapping consent_settings
        if requester_type == "ai" then
          if !consent_settings.ai_processing_consent then
            .ok { employee_id := employee_id, data_available := false,
                  consent_status := "active", last_updated := consent_record.updated_at,
                  travel_preferences := none, disclosed_fields := [],
                  data_classification := "denied" }
          else
            let res := aiDiscloseLoop employee_data mapping requested_fields
            let data_classification := if res.2.isEmpty then "denied" else "anonymized"
            .ok { employee_id := employee_id,
                  data_available := res.2.length > 0,
                  consent_status := "active", last_updated := consent_record.updated_at,
                  travel_preferences := if res.1.isEmpty then none else some res.1,
                  disclosed_fields := res.2,
                  data_classification := data_classification }
        else
          let res := adminDiscloseLoop employee_data mapping requested_fields
          let data_classification := if res.2.isEmpty then "denied" else "full"
          .ok { employee_id := employee_id,
                data_available := res.2.length > 0,
                consent_status := "active", last_updated := consent_record.updated_at,
                travel_preferences := if res.1.isEmpty then none else some res.1,
                disclosed_fields := res.2,
                data_classification := data_classification }

/-- `get_employee_travel_data` as invoked over HTTP, with the raw optional
comma-separated `fields` parameter. -/
def get_employee_travel_data (now : Nat) (employee_id : String) (fields : Option String)
    (client_id : String) (consent_storage : List (String × StoredConsent)) :
    Except HErr EmployeeTravelData :=
  get_employee_travel_data_core now employee_id (parseFieldsParam fields)
    client_id consent_storage

/-- The `BulkTravelDataRequest` body of `POST /scania/employees/bulk-travel-data`;
`requester_type` is a caller-declared payload field. -/
structure BulkTravelDataRequest where
  employee_ids : List String
  requested_fields : List String
  purpose : String
  requester_type : String

/-- The `BulkTravelDataResponse` model. -/
structure BulkTravelDataResponse where
  total_requested : Nat
  total_granted : Nat
  total_denied : Nat
  employees : List EmployeeTravelData
  request_id : String
  processed_at : Nat

/-- `get_bulk_travel_data`: maps `get_employee_travel_data` over the batch,
joining the requested fields with commas; an individual employee error
becomes a denied entry with consent status "error".  The authenticated
`client_id` of the verified token is passed through to each per-employee
call; the caller-declared `requester_type` payload field is never read. -/
def get_bulk_travel_data (now : Nat) (request : BulkTravelDataRequest) (client_id : String)
    (consent_storage : List (String × StoredConsent)) : BulkTravelDataResponse :=
  let results := request.employee_ids.map (fun eid =>
    match get_employee_travel_data now eid
        (some (String.intercalate "," request.requested_fields)) client_id consent_storage with
    | .ok d => d
    | .error _ =>
      { employee_id := eid, data_available := false, consent_status := "error",
        last_updated := now, travel_preferences := none, disclosed_fields := [],
        data_classification := "denied" })
  { total_requested := request.employee_ids.length,
    total_granted := (results.filter (fun d => d.data_available)).length,
    total_denied := (results.filter (fun d => !d.data_available)).length,
    employees := results,
    request_id := "bulk-" ++ toString now,
    processed_at := now }

/-! ## Hash-linked preferences store
(`services/travel_preferences_service.py`).  The library primitives —
`json.dumps`/`json.loads` canonical serialization, the PBKDF2 key
derivation, `hashlib.sha256` + base64 (folded into
`generate_preferences_hash`), and the Fernet authenticated cipher — are
external collaborators; the embedding is parameterized over them together
with their documented contracts: `json.loads` inverts `json.dumps`,
Fernet decryption inverts Fernet encryption under the same key, and a
token that Fernet decryption accepts under a key is an encryption of the
recovered plaintext under that key (ciphertext integrity: any token not
produced by `encrypt` — in particular any altered byte of a genuine
token — is rejected with an `InvalidToken` error). -/
structure PrefsCrypto (Payload Key PT CT : Type) where
  generate_preferences_hash : Payload → String
  kdfDerive : String → Key
  dumps : Payload → PT
  loads : PT → Except String Payload
  fernetEncrypt : Key → PT → CT
  fernetDecrypt : Key → CT → Except String PT
  loads_dumps : ∀ p, loads (dumps p) = .ok p
  decrypt_encrypt : ∀ k m, fernetDecrypt k (fernetEncrypt k m) = .ok m
  decrypt_auth : ∀ k c m, fernetDecrypt k c = .ok m → c = fernetEncrypt k m

/-- The `travel_preferences` table: rows keyed by
`(employee_id, preferences_hash)` holding the encrypted data. -/
abbrev PrefsTable (CT : Type) := List ((String × String) × CT)

/-- Row lookup on the composite key. -/
def prefsLookup (tbl : PrefsTable CT) (employee_id preferences_hash : String) : Option CT :=
  (tbl.find? (fun row => row.1.1 == employee_id && row.1.2 == preferences_hash)).map
    (fun row => row.2)

/-- `INSERT ... ON CONFLICT (employee_id, preferences_hash) DO UPDATE SET
encrypted_data = EXCLUDED.encrypted_data`. -/
def prefsUpsert (tbl : PrefsTable CT) (employee_id preferences_hash : String) (data : CT) :
    PrefsTable CT :=
  if (tbl.find? (fun row => row.1.1 == employee_id && row.1.2 == preferences_hash)).isSome then
    tbl.map (fun row =>
      if row.1.1 == employee_id && row.1.2 == preferences_hash then
        ((employee_id, preferences_hash), data) else row)
  else
    tbl ++ [((employee_id, preferences_hash), data)]

/-- `_encrypt_preferences`: serialize with sorted keys and encrypt under the
key derived from the employee key. -/
def encrypt_preferences (env : PrefsCrypto Payload Key PT CT) (preferences_data : Payload)
    (employee_key : String) : CT :=
  env.fernetEncrypt (env.kdfDerive employee_key) (env.dumps preferences_data)

/-- `_decrypt_preferences`: decrypt under the derived key and deserialize;
failures of either step propagate (the Python code re-raises). -/
def decrypt_preferences (env : PrefsCrypto Payload Key PT CT) (encrypted_data : CT)
    (employee_key : String) : Except String Payload :=
  (env.fernetDecrypt (env.kdfDerive employee_key) encrypted_data).bind env.loads

/-- `store_encrypted_preferences`: compute the content hash, encrypt, upsert
the row, and return the hash for the ACDC reference. -/
def store_encrypted_preferences (env : PrefsCrypto Payload Key PT CT) (employee_id : String)
    (preferences_data : Payload) (employee_key : String) (tbl : PrefsTable CT) :
    String × PrefsTable CT :=
  let preferences_hash := env.generate_preferences_hash preferences_data
  let encrypted_data := encrypt_preferences env preferences_data employee_key
  (preferences_hash, prefsUpsert tbl employee_id preferences_hash encrypted_data)

/-- `retrieve_encrypted_preferences`: `ok none` when the row is absent,
decryption/parse failures raise (error), otherwise the payload. -/
def retrieve_encrypted_preferences (env : PrefsCrypto Payload Key PT CT)
    (employee_id preferences_hash : String) (employee_key : String) (tbl : PrefsTable CT) :
    Except String (Option Payload) :=
  match prefsLookup tbl employee_id preferences_hash with
  | none => .ok none
  | some row => (decrypt_preferences env row employee_key).map some

/-- The result dict of `verify_preferences_integrity`. -/
structure VerifyResult where
  valid : Bool
  error : Option String
deriving DecidableEq, Repr

/-- `verify_preferences_integrity`: wraps retrieval, reporting failure
instead of raising; on success compares the recomputed content hash of
the decrypted payload with the stored hash. -/
def verify_preferences_integrity (env : PrefsCrypto Payload Key PT CT)
    (employee_id preferences_hash : String) (employee_key : String) (tbl : PrefsTable CT) :
    VerifyResult :=
  match retrieve_encrypted_preferences env employee_id preferences_hash employee_key tbl with
  | .error e => { valid := false, error := some e }
  | .ok none => { valid := false, error := some "Preferences not found" }
  | .ok (some decrypted_data) =>
    let recalculated_hash := env.generate_preferences_hash decrypted_data
    { valid := recalculated_hash == preferences_hash, error := none }

/-! ## Master cards (`api/v1/endpoints/master_cards.py`) -/

/-- A row of the `master_cards` table (`models/master_cards.py`);
`is_active` defaults to true on creation. -/
structure MasterCard where
  id : String
  employee_aid : String
  encrypted_profile_data : String
  encryption_cipher_qb64 : String
  profile_completeness : List (String × Bool)
  profile_version : String
  credential_said : Option String
  is_active : Bool
  created_at : Nat
  updated_at : Nat
  last_accessed_at : Option Nat
deriving DecidableEq, Repr

/-- The `MasterCardCreate` request body. -/
structure MasterCardCreate where
  employeeAid : String
  encryptedProfileData : String
  encryptionCipherQb64 : String
  profileCompleteness : List (String × Bool)
  profileVersion : String
  credentialSaid : Option String
deriving DecidableEq, Repr

/-- The `MasterCardUpdate` request body, every field optional. -/
structure MasterCardUpdate where
  encryptedProfileData : Option String
  encryptionCipherQb64 : Option String
  profileCompleteness : Option (List (String × Bool))
  profileVersion : Option String
  credentialSaid : Option String
deriving DecidableEq, Repr

/-- The predicate of the endpoints' active-card query:
`employee_aid == aid AND is_active == True`. -/
def isActiveCardOf (aid : String) (c : MasterCard) : Bool :=
  c.employee_aid == aid && c.is_active

/-- The row inserted by `create_master_card`; `is_active` takes the model
default `True`. -/
def newMasterCard (now : Nat) (newId : String) (card_data : MasterCardCreate) : MasterCard :=
  { id := newId
    employee_aid := card_data.employeeAid
    encrypted_profile_data := card_data.encryptedProfileData
    encryption_cipher_qb64 := card_data.encryptionCipherQb64
    profile_completeness := card_data.profileCompleteness
    profile_version := card_data.profileVersion
    credential_said := card_data.credentialSaid
    is_active := true
    created_at := now
    updated_at := now
    last_accessed_at := none }

/-- `create_master_card` (`POST /master-cards`): 403 when the body's AID
differs from the authenticated header AID; 409 when an active card for
the employee already exists; otherwise insert a fresh active card. -/
def create_master_card (now : Nat) (newId : String) (card_data : MasterCardCreate)
    (employee_aid : String) (db : List MasterCard) :
    Except HErr MasterCard × List MasterCard :=
  if card_data.employeeAid ≠ employee_aid then
    (.error ⟨403, "Employee AID mismatch"⟩, db)
  else
    match db.find? (isActiveCardOf employee_aid) with
    | some _ => (.error ⟨409, "Master card already exists for this employee"⟩, db)
    | none =>
      let master_card := newMasterCard now newId card_data
      (.ok master_card, db ++ [master_card])

/-- The in-place mutation of a successful read: stamp `last_accessed_at`. -/
def stampAccess (now : Nat) (c : MasterCard) : MasterCard :=
  { c with last_accessed_at := some now }

/-- The in-place mutation of an update call: apply exactly the set fields of
the update body; `is_active` and `employee_aid` are never among them. -/
def applyCardUpdates (now : Nat) (updates : MasterCardUpdate) (c : MasterCard) : MasterCard :=
  { c with
    encrypted_profile_data := updates.encryptedProfileData.getD c.encrypted_profile_data
    encryption_cipher_qb64 := updates.encryptionCipherQb64.getD c.encryption_cipher_qb64
    profile_completeness := updates.profileCompleteness.getD c.profile_completeness
    profile_version := updates.profileVersion.getD c.profile_version
    credential_said := (updates.credentialSaid.map some).getD c.credential_said
    updated_at := now }

/-- The in-place mutation of the soft delete: clear `is_active`. -/
def deactivateCard (now : Nat) (c : MasterCard) : MasterCard :=
  { c with is_active := false, updated_at := now }

/-- `get_employee_master_card`: 403 on foreign AID, 404 when no active card;
a successful read stamps `last_accessed_at`. -/
def get_employee_master_card (now : Nat) (employee_aid requesting_employee_aid : String)
    (db : List MasterCard) : Except HErr Unit × List MasterCard :=
  if employee_aid ≠ requesting_employee_aid then
    (.error ⟨403, "Access denied - can only access your own master card"⟩, db)
  else
    match db.find? (isActiveCardOf employee_aid) with
    | none => (.error ⟨404, "Master card not found"⟩, db)
    | some _ =>
      (.ok (), updateFirst (isActiveCardOf employee_aid) (stampAccess now) db)

/-- `update_employee_master_card` (`PUT`): applies exactly the set fields of
the update body to the active card; `is_active` and `employee_aid` are
never among them. -/
def update_employee_master_card (now : Nat) (employee_aid requesting_employee_aid : String)
    (updates : MasterCardUpdate) (db : List MasterCard) :
    Except HErr Unit × List MasterCard :=
  if employee_aid ≠ requesting_employee_aid then
    (.error ⟨403, "Access denied - can only update your own master card"⟩, db)
  else
    match db.find? (isActiveCardOf employee_aid) with
    | none => (.error ⟨404, "Master card not found"⟩, db)
    | some _ =>
      (.ok (), updateFirst (isActiveCardOf employee_aid) (applyCardUpdates now updates) db)

/-- `delete_employee_master_card` (`DELETE`): soft delete — the active card
of the employee gets `is_active := false`; the row stays. -/
def delete_employee_master_card (now : Nat) (employee_aid requesting_employee_aid : String)
    (db : List MasterCard) : Except HErr Unit × List MasterCard :=
  if employee_aid ≠ requesting_employee_aid then
    (.error ⟨403, "Access denied - can only delete your own master card"⟩, db)
  else
    match db.find? (isActiveCardOf employee_aid) with
    | none => (.error ⟨404, "Master card not found"⟩, db)
    | some _ =>
      (.ok (), updateFirst (isActiveCardOf employee_aid) (deactivateCard now) db)

/-- One invocation of a master-card endpoint. -/
inductive McOp where
  | create (now : Nat) (newId : String) (card_data : MasterCardCreate) (employee_aid : String)
  | read (now : Nat) (employee_aid requesting_employee_aid : String)
  | update (now : Nat) (employee_aid requesting_employee_aid : String)
      (updates : MasterCardUpdate)
  | delete (now : Nat) (employee_aid requesting_employee_aid : String)
deriving DecidableEq, Repr

/-- The card table reached after one endpoint invocation. -/
def applyMcOp (db : List MasterCard) (op : McOp) : List MasterCard :=
  match op with
  | .create now newId card_data employee_aid =>
    (create_master_card now newId card_data employee_aid db).2
  | .read now e r => (get_employee_master_card now e r db).2
  | .update now e r u => (update_employee_master_card now e r u db).2
  | .delete now e r => (delete_employee_master_card now e r db).2

/-- Run a sequence of master-card endpoint invocations. -/
def runMcOps (ops : List McOp) (db : List MasterCard) : List MasterCard :=
  ops.foldl applyMcOp db

/-- Number of simultaneously active master cards of one employee. -/
def activeCardCount (aid : String) (db : List MasterCard) : Nat :=
  (db.filter (isActiveCardOf aid)).length

/-! ## Company data access (`api/v1/endpoints/company_data_access.py`) -/

/-- The `CompanyDataRequest` body of `POST /company/decrypt-data`. -/
structure CompanyDataRequest where
  employee_aid : String
  context_card_said : String
  company_aid : String
deriving DecidableEq, Repr

/-- The authenticated company identity derived from the `X-API-Key` header. -/
structure CompanyAuth where
  company_aid : String
  company_name : String
deriving DecidableEq, Repr

/-- The `DecryptedTravelData` response model. -/
structure DecryptedTravelData where
  employee_aid : String
  company_aid : String
  travel_data : Json
  decrypted_fields : Option (List String)
  employee_signature_valid : Bool
  decrypted_at : Nat
  expires_at : Nat

/-- The consent-record query of `decrypt_employee_data`: the record whose
`context_card_said`, `employee_aid` and `company_aid` match the request
and the authenticated company. -/
def decryptQuery (request : CompanyDataRequest) (auth : CompanyAuth) (r : ConsentRecord) : Bool :=
  r.context_card_said == some request.context_card_said
    && r.employee_aid == request.employee_aid
    && r.company_aid == auth.company_aid

/-- `decrypt_employee_data`: the company disclosure read.  External
collaborators are parameters: `keria_get` is
`keria_service.get_credential`, `decrypt_from` is
`company_encryption_service.decrypt_data_from_employee`, and `verify_sig`
is `_verify_employee_signature` (its exceptions already mapped to a
`false` result by the endpoint's inner `try`).  Access is granted only
when the matching ConsentRecord's status is `approved`; the
`context_cards` table and its `is_active` flag are never consulted. -/
def decrypt_employee_data (now : Nat) (request : CompanyDataRequest) (auth : CompanyAuth)
    (keria_get : String → Option Json)
    (decrypt_from : String → String → String → Except String Json)
    (verify_sig : String → String → String → Bool)
    (st : WorkflowState) : Except HErr DecryptedTravelData :=
  if !validate_aid request.employee_aid then
    .error ⟨400, "Invalid employee AID"⟩
  else if request.company_aid ≠ auth.company_aid then
    .error ⟨403, "Company AID mismatch: got " ++ request.company_aid ++ ", expected "
      ++ auth.company_aid⟩
  else
    match st.records.find? (decryptQuery request auth) with
    | none => .error ⟨404, "No approved consent found for this context card"⟩
    | some consent_record =>
      if consent_record.status ≠ .approved then
        .error ⟨403, "Consent not approved (status: " ++ consent_record.status.str ++ ")"⟩
      else
        match keria_get request.context_card_said with
        | none => .error ⟨404, "Context card not found in KERIA"⟩
        | some context_card =>
          let signature_valid :=
            match consent_record.employee_signature with
            | some sig => verify_sig request.context_card_said sig request.employee_aid
            | none => true
          match jsonLookup context_card "credentialSubject" with
          | none => .error ⟨400, "No encrypted data found in context card"⟩
          | some subject =>
            match jsonLookup subject "encryptedContent" with
            | none => .error ⟨400, "No encrypted data found in context card"⟩
            | some encrypted_data =>
              match encrypted_data with
              | .s enc =>
                match decrypt_from enc request.employee_aid auth.company_aid with
                | .error e => .error ⟨500, "Data decryption failed: " ++ e⟩
                | .ok decrypted_data =>
                  .ok { employee_aid := request.employee_aid
                        company_aid := auth.company_aid
                        travel_data := decrypted_data
                        decrypted_fields := consent_record.approved_fields
                        employee_signature_valid := signature_valid
                        decrypted_at := now
                        expires_at := consent_record.expires_at }
              | _ => .error ⟨400, "No encrypted data found in context card"⟩

/-! ## Shared list lemmas -/

/-- Decomposition of a list at the first element matched by `find?`, together
with the effect of `updateFirst` there. -/
theorem updateFirst_decomp (p : α → Bool) (f : α → α) :
    ∀ l : List α, l.find? p = some a →
      ∃ l₁ l₂, l = l₁ ++ a :: l₂ ∧ l₁.find? p = none ∧
        updateFirst p f l = l₁ ++ f a :: l₂ := by
  intro l
  induction l with
  | nil => intro h; simp [List.find?] at h
  | cons x xs ih =>
    intro h
    by_cases hx : p x
    · have hxa : x = a := by simpa [List.find?, hx] using h
      subst hxa
      exact ⟨[], xs, rfl, rfl, by simp [updateFirst, hx]⟩
    · have hfind : xs.find? p = some a := by
        simpa [List.find?, hx] using h
      obtain ⟨l₁, l₂, heq, hnone, hupd⟩ := ih hfind
      refine ⟨x :: l₁, l₂, by simp [heq], ?_, ?_⟩
      · simp [List.find?, hx, hnone]
      · simp [updateFirst, hx, hupd]

/-- `updateFirst` with a mismatching search when the first match of the probe
predicate is known: after updating the first `q`-match, a `find?` probe `p`
that previously found the same element finds its image, provided the image
still satisfies `p`. -/
theorem find?_updateFirst_same (p q : α → Bool) (f : α → α) (l : List α) (a : α)
    (hq : l.find? q = some a) (hp : l.find? p = some a) (hpf : p (f a) = true) :
    (updateFirst q f l).find? p = some (f a) := by
  obtain ⟨l₁, l₂, heq, hnone, hupd⟩ := updateFirst_decomp q f l hq
  have hql : q a := List.find?_some hq
  have hl₁ : l₁.find? p = none := by
    cases hfp : l₁.find? p with
    | none => rfl
    | some b =>
      have hbmem : b ∈ l₁ := List.mem_of_find?_eq_some hfp
      have : l.find? p = some b := by
        rw [heq, List.find?_append, hfp]; rfl
      have hba : b = a := by
        rw [hp] at this; exact (Option.some.inj this).symm
      subst hba
      have : ¬ q b := by
        intro hqb
        have := List.find?_eq_none.mp hnone b hbmem
        exact this hqb
      exact absurd hql this
  rw [hupd, List.find?_append, hl₁]
  simp [List.find?, hpf]

/-- Membership after `updateFirst`: every element is an old element or the
image of an old element. -/
theorem mem_updateFirst (p : α → Bool) (f : α → α) :
    ∀ l : List α, ∀ x ∈ updateFirst p f l, x ∈ l ∨ ∃ a ∈ l, p a ∧ x = f a := by
  intro l
  induction l with
  | nil => intro x hx; simp [updateFirst] at hx
  | cons y ys ih =>
    intro x hx
    by_cases hy : p y
    · simp only [updateFirst, hy, if_pos] at hx
      rcases List.mem_cons.mp hx with h | h
      · exact Or.inr ⟨y, List.mem_cons_self .., hy, h⟩
      · exact Or.inl (List.mem_cons_of_mem _ h)
    · simp only [updateFirst, hy] at hx
      rcases List.mem_cons.mp hx with h | h
      · exact Or.inl (h ▸ List.mem_cons_self ..)
      · rcases ih x h with h' | ⟨a, ha, hpa, hxa⟩
        · exact Or.inl (List.mem_cons_of_mem _ h')
        · exact Or.inr ⟨a, List.mem_cons_of_mem _ ha, hpa, hxa⟩

/-- The filtered length can only shrink under `updateFirst` when the update
function never turns a non-`p` element into a `p` element. -/
theorem length_filter_updateFirst_le (p q : α → Bool) (f : α → α)
    (hf : ∀ x, p (f x) = true → p x = true) :
    ∀ l : List α, ((updateFirst q f l).filter p).length ≤ (l.filter p).length := by
  intro l
  induction l with
  | nil => simp [updateFirst]
  | cons y ys ih =>
    by_cases hy : q y
    · simp only [updateFirst, hy, if_pos]
      by_cases hpf : p (f y)
      · have hpy := hf y hpf
        simp [List.filter, hpf, hpy]
      · by_cases hpy : p y <;> simp [List.filter, hpf, hpy]
    · simp only [updateFirst, hy, if_neg, Bool.false_eq_true, not_false_eq_true]
      by_cases hpy : p y
      · simp only [List.filter, hpy]
        exact Nat.succ_le_succ ih
      · simpa [List.filter, hpy] using ih

/-- The filtered length is unchanged under `updateFirst` when the update
function preserves the filter predicate. -/
theorem length_filter_updateFirst_eq (p q : α → Bool) (f : α → α)
    (hf : ∀ x, p (f x) = p x) :
    ∀ l : List α, ((updateFirst q f l).filter p).length = (l.filter p).length := by
  intro l
  induction l with
  | nil => simp [updateFirst]
  | cons y ys ih =>
    by_cases hy : q y
    · simp only [updateFirst, hy, if_pos]
      by_cases hpy : p y <;> simp [List.filter, hf y, hpy]
    · simp only [updateFirst, hy, if_neg, Bool.false_eq_true, not_false_eq_true]
      by_cases hpy : p y <;> simp [List.filter, hpy, ih]

/-! ## Claim C1: approved fields are always a subset of requested fields -/

/-- `create_consent_request` preserves the approved-subset invariant: new
records are `pending`. -/
theorem consentInvariant_create (now : Nat) (newId : String) (request : ConsentRequest)
    (st : WorkflowState) (h : consentInvariant st) :
    consentInvariant (create_consent_request now newId request st).2 := by
  unfold create_consent_request
  split_ifs with h1 h2 h3
  · exact h
  · exact h
  · exact h
  · intro r hr
    simp only [List.mem_append, List.mem_singleton] at hr
    rcases hr with hr | hr
    · exact h r hr
    · subst hr
      intro habs
      simp at habs

/-- `approve_consent_request` preserves the approved-subset invariant: the
only transition into `approved` happens after the subset guard. -/
theorem consentInvariant_approve (now : Nat) (approval : ConsentApproval)
    (st : WorkflowState) (h : consentInvariant st) :
    consentInvariant (approve_consent_request now approval st).2 := by
  unfold approve_consent_request
  cases hfind : st.records.find? (fun r => r.request_id == approval.request_id) with
  | none => exact h
  | some cr =>
    by_cases hst : cr.status = .pending
    · by_cases hexp : cr.expires_at ≤ now
      · simp only [hst, hexp, if_pos, ne_eq, not_true_eq_false, if_false, if_true]
        intro r hr
        simp only [updateRecord] at hr
        rcases mem_updateFirst _ _ _ r hr with h' | ⟨a, ha, _, hxa⟩
        · exact h r h'
        · subst hxa
          intro habs
          simp at habs
      · by_cases hsub : approval.approved_fields.all
            (fun f => cr.requested_fields.contains f)
        · -- success branch: guard passed, record becomes approved with checked fields
          simp only [hst, hexp, hsub, ne_eq, not_true_eq_false, if_false,
            Bool.not_true, Bool.false_eq_true]
          obtain ⟨l₁, l₂, heq, -, hupd⟩ :=
            updateFirst_decomp (fun r => r.request_id == approval.request_id)
              (fun r => { r with status := .approved
                                 approved_fields := some approval.approved_fields
                                 context_card_said := some approval.context_card_said
                                 employee_signature := some approval.employee_signature
                                 approved_at := some now }) st.records hfind
          intro r hr
          simp only [updateRecord, hupd, List.mem_append, List.mem_cons] at hr
          rcases hr with hr | hr | hr
          · exact h r (heq ▸ List.mem_append_left _ hr)
          · subst hr
            intro _
            refine ⟨approval.approved_fields, rfl, ?_⟩
            intro x hx
            have := (List.all_eq_true.mp hsub) x hx
            simpa using this
          · exact h r (heq ▸ List.mem_append_right _ (List.mem_cons_of_mem _ hr))
        · simp only [hst, hexp, hsub, ne_eq, not_true_eq_false, if_false,
            Bool.not_false, if_true]
          exact h
    · simp only [hst, ne_eq, not_false_eq_true, if_true]
      exact h

/-- `deny_consent_request` preserves the approved-subset invariant. -/
theorem consentInvariant_deny (now : Nat) (request_id : String) (reason : Option String)
    (st : WorkflowState) (h : consentInvariant st) :
    consentInvariant (deny_consent_request now request_id reason st).2 := by
  unfold deny_consent_request
  cases hfind : st.records.find? (fun r => r.request_id == request_id) with
  | none => exact h
  | some cr =>
    by_cases hst : cr.status = .pending
    · simp only [hst, ne_eq, not_true_eq_false, if_false]
      intro r hr
      simp only [updateRecord] at hr
      rcases mem_updateFirst _ _ _ r hr with h' | ⟨a, ha, _, hxa⟩
      · exact h r h'
      · subst hxa
        intro habs
        simp at habs
    · simp only [hst, ne_eq, not_false_eq_true, if_true]
      exact h

/-- `revoke_consent` preserves the approved-subset invariant. -/
theorem consentInvariant_revoke (now : Nat) (request_id : String)
    (st : WorkflowState) (h : consentInvariant st) :
    consentInvariant (revoke_consent now request_id st).2 := by
  unfold revoke_consent
  cases hfind : st.records.find? (fun r => r.request_id == request_id) with
  | none => exact h
  | some cr =>
    by_cases hst : cr.status = .approved
    · simp only [hst, ne_eq, not_true_eq_false, if_false]
      intro r hr
      simp only [updateRecord] at hr
      rcases mem_updateFirst _ _ _ r hr with h' | ⟨a, ha, _, hxa⟩
      · exact h r h'
      · subst hxa
        intro habs
        simp at habs
    · simp only [hst, ne_eq, not_false_eq_true, if_true]
      exact h

/-- `get_consent_status` preserves the approved-subset invariant (its only
write is the lazy transition to `expired`). -/
theorem consentInvariant_readStatus (now : Nat) (request_id : String)
    (st : WorkflowState) (h : consentInvariant st) :
    consentInvariant (get_consent_status now request_id st).2 := by
  unfold get_consent_status
  cases hfind : st.records.find? (fun r => r.request_id == request_id) with
  | none => exact h
  | some cr =>
    by_cases hc : cr.status == .pending && decide (cr.expires_at ≤ now)
    · simp only [hc, if_pos, if_true]
      intro r hr
      simp only [updateRecord] at hr
      rcases mem_updateFirst _ _ _ r hr with h' | ⟨a, ha, _, hxa⟩
      · exact h r h'
      · subst hxa
        intro habs
        simp at habs
    · simp only [hc, Bool.false_eq_true, if_false]
      exact h

/-- `get_consent_data` never writes the state. -/
theorem get_consent_data_state (request_id : String) (st : WorkflowState) :
    (get_consent_data request_id st).2 = st := by
  unfold get_consent_data
  cases st.records.find? (fun r => r.request_id == request_id) with
  | none => rfl
  | some cr =>
    by_cases hst : cr.status = .approved
    · cases hccs : cr.context_card_said <;> simp [hst, hccs]
    · simp [hst]

/-- Every endpoint invocation preserves the approved-subset invariant. -/
theorem consentInvariant_applyWfOp (st : WorkflowState) (op : WfOp)
    (h : consentInvariant st) : consentInvariant (applyWfOp st op) := by
  cases op with
  | create now newId request => exact consentInvariant_create now newId request st h
  | approve now approval => exact consentInvariant_approve now approval st h
  | deny now request_id reason => exact consentInvariant_deny now request_id reason st h
  | revoke now request_id => exact consentInvariant_revoke now request_id st h
  | readStatus now request_id => exact consentInvariant_readStatus now request_id st h
  | readData request_id =>
    simpa [applyWfOp, get_consent_data_state] using h

/-- The approved-subset invariant holds in every state reachable from a
given invariant-satisfying state. -/
theorem consentInvariant_runWfOps (ops : List WfOp) :
    ∀ st : WorkflowState, consentInvariant st → consentInvariant (runWfOps ops st) := by
  induction ops with
  | nil => intro st h; exact h
  | cons op rest ih =>
    intro st h
    exact ih (applyWfOp st op) (consentInvariant_applyWfOp st op h)

/-- Claim C1: an approve call whose approved fields are not a subset of the
requested fields of the (pending, unexpired) record it addresses fails
with the validation error and leaves the state — every field of every
record — unchanged; and in every state reachable through the workflow
endpoints from the empty database, every record with status `approved`
satisfies `approved_fields ⊆ requested_fields`. -/
theorem claim_C1 :
    (∀ (now : Nat) (approval : ConsentApproval) (st : WorkflowState) (r : ConsentRecord),
      st.records.find? (fun x => x.request_id == approval.request_id) = some r →
      r.status = .pending →
      ¬ r.expires_at ≤ now →
      ¬ (∀ x ∈ approval.approved_fields, x ∈ r.requested_fields) →
      approve_consent_request now approval st =
        (.error ⟨400, "Approved fields must be subset of requested fields"⟩, st))
    ∧ (∀ ops : List WfOp, consentInvariant (runWfOps ops initWorkflowState)) := by
  constructor
  · intro now approval st r hfind hpending hexp hsub
    have hall : approval.approved_fields.all (fun f => r.requested_fields.contains f) = false := by
      rw [List.all_eq_false]
      push_neg at hsub
      obtain ⟨x, hx, hnx⟩ := hsub
      exact ⟨x, hx, by simpa using hnx⟩
    unfold approve_consent_request
    rw [hfind]
    dsimp only
    rw [if_neg (by simp [hpending]), if_neg hexp, if_pos (by rw [hall]; rfl)]
  · intro ops
    exact consentInvariant_runWfOps ops initWorkflowState (by intro r hr; simp [initWorkflowState] at hr)

/-- Concrete pending record used by the C1 witness. -/
def wfRecordC1 : ConsentRecord :=
  { request_id := "req-1"
    employee_aid := "EAAAAAAAAAAAAAAAAAAAAAAAAAAAAAAAAAAAAAAAAAAAA"
    company_aid := "EBBBBBBBBBBBBBBBBBBBBBBBBBBBBBBBBBBBBBBBBBBBB"
    requested_fields := ["dietary"]
    approved_fields := none
    purpose := "travel booking"
    status := .pending
    company_public_key := "pk"
    created_at := 0
    approved_at := none
    denied_at := none
    revoked_at := none
    expires_at := 100
    denial_reason := none
    context_card_said := none
    employee_signature := none }

/-- Concrete one-record state used by the C1 witness. -/
def wfStateC1 : WorkflowState :=
  { records := [wfRecordC1], credential_store := [], context_cards := [] }

/-- A non-subset approval for the C1 witness. -/
def wfApprovalC1 : ConsentApproval :=
  { request_id := "req-1", approved_fields := ["flight_preferences"],
    employee_signature := "sig", context_card_said := "said-1" }

/-- Witness for C1 at a concrete input: the non-subset approval is rejected
with the validation error and the state is unchanged. -/
theorem claim_C1_witness :
    approve_consent_request 5 wfApprovalC1 wfStateC1 =
      (.error ⟨400, "Approved fields must be subset of requested fields"⟩, wfStateC1) :=
  claim_C1.1 5 wfApprovalC1 wfStateC1 wfRecordC1 (by decide) (by decide) (by decide) (by decide)

/-! ## Claims C2 and C10: behaviour of approve when context-card creation
fails (which, with the mock-encryption attribute absent, is always) -/

/-- The record update applied by a successful approve call. -/
def approveStamp (now : Nat) (approval : ConsentApproval) (r : ConsentRecord) : ConsentRecord :=
  { r with status := .approved
           approved_fields := some approval.approved_fields
           context_card_said := some approval.context_card_said
           employee_signature := some approval.employee_signature
           approved_at := some now }

/-- Shape of a successful approve call: all guards passed, the encryption
attempt failed (the attribute is absent), the record is stamped approved
and the credential store is untouched. -/
theorem approve_success_eq (now : Nat) (approval : ConsentApproval) (st : WorkflowState)
    (r : ConsentRecord)
    (hfind : st.records.find? (fun x => x.request_id == approval.request_id) = some r)
    (hpending : r.status = .pending)
    (hexp : ¬ r.expires_at ≤ now)
    (hsub : approval.approved_fields.all (fun f => r.requested_fields.contains f) = true) :
    approve_consent_request now approval st =
      (.ok "approved",
        { records := updateFirst (fun x => x.request_id == approval.request_id)
            (approveStamp now approval) st.records
          credential_store := st.credential_store
          context_cards := st.context_cards }) := by
  unfold approve_consent_request
  rw [hfind]
  dsimp only
  rw [if_neg (by simp [hpending]), if_neg hexp, if_neg (by rw [hsub]; simp)]
  rfl

/-- Inversion of a successful approve call: success implies the record was
found, pending, unexpired and the subset guard passed. -/
theorem approve_ok_inv (now : Nat) (approval : ConsentApproval) (st : WorkflowState)
    (hok : (approve_consent_request now approval st).1 = .ok "approved") :
    ∃ r, st.records.find? (fun x => x.request_id == approval.request_id) = some r
      ∧ r.status = .pending ∧ ¬ r.expires_at ≤ now
      ∧ approval.approved_fields.all (fun f => r.requested_fields.contains f) = true := by
  unfold approve_consent_request at hok
  cases hfind : st.records.find? (fun x => x.request_id == approval.request_id) with
  | none => rw [hfind] at hok; simp at hok
  | some r =>
    rw [hfind] at hok
    dsimp only at hok
    by_cases hpending : r.status = .pending
    · rw [if_neg (by simp [hpending])] at hok
      by_cases hexp : r.expires_at ≤ now
      · rw [if_pos hexp] at hok; simp at hok
      · rw [if_neg hexp] at hok
        by_cases hsub : approval.approved_fields.all
            (fun f => r.requested_fields.contains f)
        · exact ⟨r, rfl, hpending, hexp, hsub⟩
        · have hall : approval.approved_fields.all
              (fun f => r.requested_fields.contains f) = false := by
            cases h : approval.approved_fields.all (fun f => r.requested_fields.contains f) with
            | true => exact absurd h hsub
            | false => rfl
          rw [if_pos (by rw [hall]; rfl)] at hok
          simp at hok
    · rw [if_pos (by simp [hpending])] at hok; simp at hok

/-- Concrete pending record for the C2 counterexample. -/
def wfRecordC2 : ConsentRecord :=
  { wfRecordC1 with request_id := "req-2" }

/-- Concrete state for the C2 counterexample. -/
def wfStateC2 : WorkflowState :=
  { records := [wfRecordC2], credential_store := [], context_cards := [] }

/-- A valid (subset) approval for the C2 counterexample. -/
def wfApprovalC2 : ConsentApproval :=
  { request_id := "req-2", approved_fields := ["dietary"],
    employee_signature := "sig", context_card_said := "said-2" }

/-- Counterexample to C2 as stated: at this concrete approve call the
context-card encryption step fails (the mock-encryption attribute does
not exist), yet the call succeeds, the record is persisted with status
`approved` — it does not remain `pending` for retry — and no context
card has been materialized in the credential store. -/
theorem claim_C2_counterexample :
    contextCardEncryptAttempt (buildTravelData ["dietary"])
        wfRecordC2.employee_aid = .error "AttributeError: _mock_encrypt_for_employee"
    ∧ (approve_consent_request 5 wfApprovalC2 wfStateC2).1 = .ok "approved"
    ∧ ((approve_consent_request 5 wfApprovalC2 wfStateC2).2.records.map
        (fun r => r.status)) = [.approved]
    ∧ (approve_consent_request 5 wfApprovalC2 wfStateC2).2.credential_store = [] :=
  ⟨rfl, rfl, rfl, rfl⟩

/-- Claim C2 as amended: approve is not all-or-nothing with respect to
context-card creation.  For every approve call that reaches the creation
step, the encryption attempt fails, the exception is swallowed, and the
ConsentRecord is nevertheless persisted with status `approved` (not
`pending`) carrying the caller-supplied `context_card_said`, while the
credential store is left unchanged — an approved record thus exists
without its context card having been materialized. -/
theorem claim_C2_amended (now : Nat) (approval : ConsentApproval) (st : WorkflowState)
    (r : ConsentRecord)
    (hfind : st.records.find? (fun x => x.request_id == approval.request_id) = some r)
    (hpending : r.status = .pending)
    (hexp : ¬ r.expires_at ≤ now)
    (hsub : approval.approved_fields.all (fun f => r.requested_fields.contains f) = true) :
    contextCardEncryptAttempt (buildTravelData approval.approved_fields)
        r.employee_aid = .error "AttributeError: _mock_encrypt_for_employee"
    ∧ (approve_consent_request now approval st).1 = .ok "approved"
    ∧ (approve_consent_request now approval st).2.credential_store = st.credential_store
    ∧ (approve_consent_request now approval st).2.records.find?
        (fun x => x.request_id == approval.request_id) =
          some (approveStamp now approval r) := by
  have heq := approve_success_eq now approval st r hfind hpending hexp hsub
  refine ⟨rfl, by rw [heq], by rw [heq], ?_⟩
  rw [heq]
  exact find?_updateFirst_same _ _ _ st.records r hfind hfind
    (by simpa [approveStamp] using List.find?_some hfind)

/-- Witness for the amended C2 at a concrete input. -/
theorem claim_C2_amended_witness :
    contextCardEncryptAttempt (buildTravelData ["dietary"])
        wfRecordC2.employee_aid = .error "AttributeError: _mock_encrypt_for_employee"
    ∧ (approve_consent_request 7 wfApprovalC2 wfStateC2).1 = .ok "approved"
    ∧ (approve_consent_request 7 wfApprovalC2 wfStateC2).2.credential_store =
        wfStateC2.credential_store
    ∧ (approve_consent_request 7 wfApprovalC2 wfStateC2).2.records.find?
        (fun x => x.request_id == wfApprovalC2.request_id) =
          some (approveStamp 7 wfApprovalC2 wfRecordC2) :=
  claim_C2_amended 7 wfApprovalC2 wfStateC2 wfRecordC2
    (by decide) (by decide) (by decide) (by decide)

/-- Claim C10: whenever an approve call succeeds, the persisted record's
`context_card_said` is exactly the caller-supplied one, the in-process
credential store is unchanged, and the reason is that the internal
encryption step always raises: `CompanyEncryptionService` defines no
mock-encryption method, so the store-populating branch is unreachable. -/
theorem claim_C10 (now : Nat) (approval : ConsentApproval) (st : WorkflowState)
    (hok : (approve_consent_request now approval st).1 = .ok "approved") :
    mock_encrypt_for_employee = none
    ∧ (∀ td aid, contextCardEncryptAttempt td aid =
        .error "AttributeError: _mock_encrypt_for_employee")
    ∧ (approve_consent_request now approval st).2.credential_store = st.credential_store
    ∧ ∃ r, st.records.find? (fun x => x.request_id == approval.request_id) = some r
        ∧ (approve_consent_request now approval st).2.records.find?
            (fun x => x.request_id == approval.request_id) =
              some (approveStamp now approval r)
        ∧ (approveStamp now approval r).context_card_said =
            some approval.context_card_said := by
  obtain ⟨r, hfind, hpending, hexp, hsub⟩ := approve_ok_inv now approval st hok
  have heq := approve_success_eq now approval st r hfind hpending hexp hsub
  refine ⟨rfl, fun td aid => rfl, by rw [heq], r, hfind, ?_, rfl⟩
  rw [heq]
  exact find?_updateFirst_same _ _ _ st.records r hfind hfind
    (by simpa [approveStamp] using List.find?_some hfind)

/-- Witness for C10 at a concrete successful approve call. -/
theorem claim_C10_witness :
    mock_encrypt_for_employee = none
    ∧ (∀ td aid, contextCardEncryptAttempt td aid =
        .error "AttributeError: _mock_encrypt_for_employee")
    ∧ (approve_consent_request 9 wfApprovalC2 wfStateC2).2.credential_store =
        wfStateC2.credential_store
    ∧ ∃ r, wfStateC2.records.find?
          (fun x => x.request_id == wfApprovalC2.request_id) = some r
        ∧ (approve_consent_request 9 wfApprovalC2 wfStateC2).2.records.find?
            (fun x => x.request_id == wfApprovalC2.request_id) =
              some (approveStamp 9 wfApprovalC2 r)
        ∧ (approveStamp 9 wfApprovalC2 r).context_card_said =
            some wfApprovalC2.context_card_said :=
  claim_C10 9 wfApprovalC2 wfStateC2 rfl

/-! ## Claim C7: lazy expiry transitions -/

/-- Concrete expired pending record for the C7 counterexample. -/
def wfRecordC7 : ConsentRecord :=
  { wfRecordC1 with request_id := "req-7", expires_at := 5 }

/-- Concrete state for the C7 counterexample. -/
def wfStateC7 : WorkflowState :=
  { records := [wfRecordC7], credential_store := [], context_cards := [] }

/-- Counterexample to C7 as stated: deny is one of the mutations the claim
lists, yet on a `pending` record whose `expires_at` (5) has passed
(now = 10) the deny call does not first transition the record to
`expired` — it succeeds and transitions it directly to `denied`. -/
theorem claim_C7_counterexample :
    wfRecordC7.status = .pending ∧ wfRecordC7.expires_at ≤ 10
    ∧ (deny_consent_request 10 "req-7" none wfStateC7).1 = .ok "denied"
    ∧ ((deny_consent_request 10 "req-7" none wfStateC7).2.records.map
        (fun r => r.status)) = [.denied] :=
  ⟨rfl, by decide, rfl, rfl⟩

/-- Claim C7 as amended: for a `pending` record whose `expires_at` has
passed, approve and get_status perform the lazy transition to `expired`
before returning — approve fails with the expiry error and the record's
status thereafter reads `expired`, get_status reports `expired` — but
deny does not: it transitions such a record directly to `denied`; and
get_data returns a not-approved error without modifying the record. -/
theorem claim_C7_amended :
    (∀ (now : Nat) (approval : ConsentApproval) (st : WorkflowState) (r : ConsentRecord),
      st.records.find? (fun x => x.request_id == approval.request_id) = some r →
      r.status = .pending → r.expires_at ≤ now →
      (approve_consent_request now approval st).1 =
          .error ⟨400, "Consent request has expired"⟩
        ∧ (approve_consent_request now approval st).2.records.find?
            (fun x => x.request_id == approval.request_id) =
              some { r with status := .expired })
    ∧ (∀ (now : Nat) (rid : String) (st : WorkflowState) (r : ConsentRecord),
      st.records.find? (fun x => x.request_id == rid) = some r →
      r.status = .pending → r.expires_at ≤ now →
      (get_consent_status now rid st).1 =
          .ok { request_id := rid, status := .expired, created_at := r.created_at,
                expires_at := r.expires_at, approved_fields := r.approved_fields,
                context_card_said := r.context_card_said }
        ∧ (get_consent_status now rid st).2.records.find?
            (fun x => x.request_id == rid) = some { r with status := .expired })
    ∧ (∀ (now : Nat) (rid : String) (reason : Option String) (st : WorkflowState)
        (r : ConsentRecord),
      st.records.find? (fun x => x.request_id == rid) = some r →
      r.status = .pending → r.expires_at ≤ now →
      (deny_consent_request now rid reason st).1 = .ok "denied"
        ∧ (deny_consent_request now rid reason st).2.records.find?
            (fun x => x.request_id == rid) =
              some { r with status := .denied, denial_reason := reason,
                            denied_at := some now })
    ∧ (∀ (rid : String) (st : WorkflowState) (r : ConsentRecord),
      st.records.find? (fun x => x.request_id == rid) = some r →
      r.status = .pending →
      get_consent_data rid st =
        (.error ⟨400, "Request not approved (status: pending)"⟩, st)) := by
  refine ⟨?_, ?_, ?_, ?_⟩
  · intro now approval st r hfind hpending hexp
    unfold approve_consent_request
    rw [hfind]
    dsimp only
    rw [if_neg (by simp [hpending]), if_pos hexp]
    refine ⟨rfl, ?_⟩
    exact find?_updateFirst_same _ _ _ st.records r hfind hfind
      (by simpa using List.find?_some hfind)
  · intro now rid st r hfind hpending hexp
    unfold get_consent_status
    rw [hfind]
    dsimp only
    have hcond : (r.status == CStatus.pending && decide (r.expires_at ≤ now)) = true := by
      simp [hpending, hexp]
    rw [if_pos hcond, if_pos hcond]
    refine ⟨rfl, ?_⟩
    exact find?_updateFirst_same _ _ _ st.records r hfind hfind
      (by simpa using List.find?_some hfind)
  · intro now rid reason st r hfind hpending _
    unfold deny_consent_request
    rw [hfind]
    dsimp only
    rw [if_neg (by simp [hpending])]
    refine ⟨rfl, ?_⟩
    exact find?_updateFirst_same _ _ _ st.records r hfind hfind
      (by simpa using List.find?_some hfind)
  · intro rid st r hfind hpending
    unfold get_consent_data
    rw [hfind]
    dsimp only
    rw [if_pos (by simp [hpending])]
    rw [hpending]
    rfl

/-- Witness for the amended C7 at concrete inputs: one expired pending
record, exercising all four endpoint behaviours. -/
theorem claim_C7_amended_witness :
    ((approve_consent_request 10
        { request_id := "req-7", approved_fields := [], employee_signature := "s",
          context_card_said := "cc" } wfStateC7).1 =
        .error ⟨400, "Consent request has expired"⟩
      ∧ (approve_consent_request 10
          { request_id := "req-7", approved_fields := [], employee_signature := "s",
            context_card_said := "cc" } wfStateC7).2.records.find?
            (fun x => x.request_id == "req-7") = some { wfRecordC7 with status := .expired })
    ∧ ((get_consent_status 10 "req-7" wfStateC7).1 =
        .ok { request_id := "req-7", status := .expired, created_at := wfRecordC7.created_at,
              expires_at := wfRecordC7.expires_at, approved_fields := wfRecordC7.approved_fields,
              context_card_said := wfRecordC7.context_card_said }
      ∧ (get_consent_status 10 "req-7" wfStateC7).2.records.find?
          (fun x => x.request_id == "req-7") = some { wfRecordC7 with status := .expired })
    ∧ ((deny_consent_request 10 "req-7" none wfStateC7).1 = .ok "denied"
      ∧ (deny_consent_request 10 "req-7" none wfStateC7).2.records.find?
          (fun x => x.request_id == "req-7") =
            some { wfRecordC7 with status := .denied, denial_reason := none,
                                   denied_at := some 10 })
    ∧ get_consent_data "req-7" wfStateC7 =
        (.error ⟨400, "Request not approved (status: pending)"⟩, wfStateC7) :=
  ⟨claim_C7_amended.1 10 _ wfStateC7 wfRecordC7 (by decide) (by decide) (by decide),
   claim_C7_amended.2.1 10 "req-7" wfStateC7 wfRecordC7 (by decide) (by decide) (by decide),
   claim_C7_amended.2.2.1 10 "req-7" none wfStateC7 wfRecordC7 (by decide) (by decide) (by decide),
   claim_C7_amended.2.2.2 "req-7" wfStateC7 wfRecordC7 (by decide) (by decide)⟩

/-! ## Claim C3: revocation makes company disclosure reads fail while the
context-card row survives untouched -/

/-- Claim C3: after revoking an approved ConsentRecord, the same consent
record still answers the company's disclosure query, but with status
`revoked`, so `decrypt_employee_data` reports access denied — whatever
the external card store returns and although the `context_cards` table
(including any `is_active` flag) is exactly as before the revocation:
the read-time check is on ConsentRecord status, not the card flag. -/
theorem claim_C3 (now now2 : Nat) (st : WorkflowState) (r : ConsentRecord)
    (request : CompanyDataRequest) (auth : CompanyAuth)
    (keria_get : String → Option Json)
    (decrypt_from : String → String → String → Except String Json)
    (verify_sig : String → String → String → Bool)
    (hfind : st.records.find? (fun x => x.request_id == r.request_id) = some r)
    (happroved : r.status = .approved)
    (hquery : st.records.find? (decryptQuery request auth) = some r)
    (hvalid : validate_aid request.employee_aid = true)
    (hmatch : request.company_aid = auth.company_aid) :
    (revoke_consent now r.request_id st).1 = .ok "revoked"
    ∧ (revoke_consent now r.request_id st).2.context_cards = st.context_cards
    ∧ (revoke_consent now r.request_id st).2.credential_store = st.credential_store
    ∧ decrypt_employee_data now2 request auth keria_get decrypt_from verify_sig
        (revoke_consent now r.request_id st).2 =
        .error ⟨403, "Consent not approved (status: revoked)"⟩ := by
  have hrevoke : revoke_consent now r.request_id st =
      (.ok "revoked",
        updateRecord r.request_id
          (fun x => { x with status := .revoked, revoked_at := some now }) st) := by
    unfold revoke_consent
    rw [hfind]
    dsimp only
    rw [if_neg (by simp [happroved])]
  refine ⟨by rw [hrevoke], by rw [hrevoke]; rfl, by rw [hrevoke]; rfl, ?_⟩
  rw [hrevoke]
  have hq : decryptQuery request auth r = true := List.find?_some hquery
  have hfind' : (updateRecord r.request_id
      (fun x => { x with status := .revoked, revoked_at := some now }) st).records.find?
      (decryptQuery request auth) =
      some { r with status := .revoked, revoked_at := some now } := by
    exact find?_updateFirst_same _ _ _ st.records r hfind hquery
      (by simpa [decryptQuery] using hq)
  unfold decrypt_employee_data
  rw [if_neg (by simp [hvalid]), if_neg (by simp [hmatch])]
  rw [hfind']
  dsimp only
  rw [if_pos (by simp)]
  rfl

/-- Concrete approved record for the C3 witness: valid AIDs, a context-card
SAID, and a matching active context-card row. -/
def wfRecordC3 : ConsentRecord :=
  { wfRecordC1 with
      request_id := "req-3"
      status := .approved
      approved_fields := some ["dietary"]
      context_card_said := some "card-3"
      employee_signature := some "sig" }

/-- Concrete state for the C3 witness, holding the (still active) card row. -/
def wfStateC3 : WorkflowState :=
  { records := [wfRecordC3]
    credential_store := []
    context_cards := [{ card_said := "card-3",
                        employee_aid := wfRecordC3.employee_aid,
                        company_aid := wfRecordC3.company_aid,
                        is_active := true }] }

/-- The company's disclosure request for the C3 witness. -/
def wfRequestC3 : CompanyDataRequest :=
  { employee_aid := wfRecordC3.employee_aid
    context_card_said := "card-3"
    company_aid := wfRecordC3.company_aid }

/-- The authenticated company for the C3 witness. -/
def wfAuthC3 : CompanyAuth :=
  { company_aid := wfRecordC3.company_aid, company_name := "Scania" }

/-- Witness for C3 at concrete inputs: the revocation succeeds, the card row
(still active) is untouched, and the subsequent disclosure read reports
access denied. -/
theorem claim_C3_witness :
    (revoke_consent 20 wfRecordC3.request_id wfStateC3).1 = .ok "revoked"
    ∧ (revoke_consent 20 wfRecordC3.request_id wfStateC3).2.context_cards =
        wfStateC3.context_cards
    ∧ (revoke_consent 20 wfRecordC3.request_id wfStateC3).2.credential_store =
        wfStateC3.credential_store
    ∧ decrypt_employee_data 21 wfRequestC3 wfAuthC3 (fun _ => none)
        (fun _ _ _ => .error "no key") (fun _ _ _ => false)
        (revoke_consent 20 wfRecordC3.request_id wfStateC3).2 =
        .error ⟨403, "Consent not approved (status: revoked)"⟩ :=
  claim_C3 20 21 wfStateC3 wfRecordC3 wfRequestC3 wfAuthC3 (fun _ => none)
    (fun _ _ _ => .error "no key") (fun _ _ _ => false)
    (by decide) (by decide) (by decide) (by decide) (by decide)

/-! ## Claims C4, C5, C9: the disclosure policy of `scania.py` -/

/-- `find?` over a map that preserves association-list keys. -/
theorem find?_map_assoc (key : String) (g : String × Json → String × Json)
    (hg : ∀ kv, (g kv).1 = kv.1) :
    ∀ fs : List (String × Json),
      (fs.map g).find? (fun kv => kv.1 == key) =
        (fs.find? (fun kv => kv.1 == key)).map g := by
  intro fs
  induction fs with
  | nil => rfl
  | cons kv rest ih =>
    by_cases hk : kv.1 == key
    · simp [List.find?, hg kv, hk]
    · simp only [List.map_cons, List.find?, hg kv, hk]
      exact ih

/-- Looking up the replaced key after `objReplaceCount`: an absent key stays
absent, a present value is replaced by its entry count. -/
theorem jsonLookup_objReplaceCount_self (key : String) (j : Json) :
    (jsonLookup j key = none ∧ jsonLookup (objReplaceCount key j) key = none) ∨
    ∃ o, jsonLookup j key = some o ∧
      jsonLookup (objReplaceCount key j) key = some (.obj [("count", .n (jsonSize o))]) := by
  cases j with
  | obj fs =>
    cases hfind : fs.find? (fun kv => kv.1 == key) with
    | none =>
      left
      constructor
      · simp [jsonLookup, hfind]
      · simp [objReplaceCount, hfind, jsonLookup]
    | some kv =>
      right
      refine ⟨kv.2, by simp [jsonLookup, hfind], ?_⟩
      have hkey0 := List.find?_some hfind
      have hkey : (kv.1 == key) = true := by simpa using hkey0
      have hmap := find?_map_assoc key
        (fun kv => if kv.1 == key then (kv.1, Json.obj [("count", .n (jsonSize kv.2))]) else kv)
        (fun kv => by by_cases h : kv.1 == key <;> simp [h]) fs
      simp only [objReplaceCount, hfind, Option.isSome_some, if_pos, jsonLookup, hmap]
      simp [show kv.1 = key from by simpa using hkey]
  | s v => exact Or.inl ⟨rfl, rfl⟩
  | n v => exact Or.inl ⟨rfl, rfl⟩
  | b v => exact Or.inl ⟨rfl, rfl⟩
  | arr elems => exact Or.inl ⟨rfl, rfl⟩

/-- Looking up a different key after `objReplaceCount` is unchanged. -/
theorem jsonLookup_objReplaceCount_other (key k : String) (hne : k ≠ key) (j : Json) :
    jsonLookup (objReplaceCount key j) k = jsonLookup j k := by
  cases j with
  | obj fs =>
    cases hfind : fs.find? (fun kv => kv.1 == key) with
    | none => simp [objReplaceCount, hfind]
    | some kv =>
      have hmap := find?_map_assoc k
        (fun kv => if kv.1 == key then (kv.1, Json.obj [("count", .n (jsonSize kv.2))]) else kv)
        (fun kv => by by_cases h : kv.1 == key <;> simp [h]) fs
      simp only [objReplaceCount, hfind, Option.isSome_some, if_pos, jsonLookup, hmap]
      cases hfk : fs.find? (fun kv => kv.1 == k) with
      | none => rfl
      | some kv' =>
        have hk0 := List.find?_some hfk
        have hk' : kv'.1 = k := by simpa using hk0
        simp [hk', hne]
  | s v => rfl
  | n v => rfl
  | b v => rfl
  | arr elems => rfl

/-- The anonymization contract of C4: relative to the stored original, every
membership-number collection (frequent-flyer numbers, loyalty programs)
in the disclosed value is replaced by its element count — never its
literal entries. -/
def anonValueOK (orig v : Json) : Prop :=
  ∀ key ∈ (["frequentFlyerNumbers", "loyaltyPrograms"] : List String),
    (jsonLookup orig key = none ∧ jsonLookup v key = none) ∨
    ∃ o, jsonLookup orig key = some o ∧
      jsonLookup v key = some (.obj [("count", .n (jsonSize o))])

/-- `anonymize_for_ai` satisfies the anonymization contract. -/
theorem anonymize_for_ai_ok (j : Json) : anonValueOK j (anonymize_for_ai j) := by
  intro key hkey
  simp only [List.mem_cons, List.mem_singleton, List.not_mem_nil, or_false] at hkey
  rcases hkey with hkey | hkey
  · subst hkey
    have hother := jsonLookup_objReplaceCount_other "loyaltyPrograms" "frequentFlyerNumbers"
      (by decide) (objReplaceCount "frequentFlyerNumbers" j)
    rcases jsonLookup_objReplaceCount_self "frequentFlyerNumbers" j with ⟨h1, h2⟩ | ⟨o, h1, h2⟩
    · exact Or.inl ⟨h1, by rw [anonymize_for_ai, hother, h2]⟩
    · exact Or.inr ⟨o, h1, by rw [anonymize_for_ai, hother, h2]⟩
  · subst hkey
    have hother := jsonLookup_objReplaceCount_other "frequentFlyerNumbers" "loyaltyPrograms"
      (by decide) j
    rcases jsonLookup_objReplaceCount_self "loyaltyPrograms"
        (objReplaceCount "frequentFlyerNumbers" j) with ⟨h1, h2⟩ | ⟨o, h1, h2⟩
    · exact Or.inl ⟨by rw [← hother]; exact h1, h2⟩
    · exact Or.inr ⟨o, by rw [← hother]; exact h1, h2⟩

/-- Characterization of the AI disclosure loop: disclosed fields are flight
or hotel preferences with a true consent flag, and every disclosed value
is the anonymization of the stored value. -/
theorem aiDiscloseLoop_spec (ed : List (String × Json)) (mapping : List (String × Bool)) :
    ∀ fields : List String,
      (∀ f ∈ (aiDiscloseLoop ed mapping fields).2,
        (f = "flight_preferences" ∨ f = "hotel_preferences")
          ∧ fieldConsentGet mapping f = true)
      ∧ (∀ fv ∈ (aiDiscloseLoop ed mapping fields).1,
        fv.1 ∈ (aiDiscloseLoop ed mapping fields).2
          ∧ fv.2 = anonymize_for_ai (dataSub ed fv.1)) := by
  intro fields
  induction fields with
  | nil => exact ⟨by simp [aiDiscloseLoop], by simp [aiDiscloseLoop]⟩
  | cons field rest ih =>
    by_cases hc : (field == "flight_preferences" || field == "hotel_preferences")
        && fieldConsentGet mapping field
    · constructor
      · intro f hf
        simp only [aiDiscloseLoop, hc, if_pos, List.mem_cons] at hf
        rcases hf with hf | hf
        · rw [hf]
          exact ⟨by simpa using Bool.and_elim_left hc, Bool.and_elim_right hc⟩
        · exact ih.1 f hf
      · intro fv hfv
        simp only [aiDiscloseLoop, hc, if_pos, List.mem_cons] at hfv ⊢
        rcases hfv with hfv | hfv
        · subst hfv
          exact ⟨Or.inl rfl, rfl⟩
        · obtain ⟨h1, h2⟩ := ih.2 fv hfv
          exact ⟨Or.inr h1, h2⟩
    · constructor
      · intro f hf
        simp only [aiDiscloseLoop, hc, Bool.false_eq_true, if_false] at hf
        exact ih.1 f hf
      · intro fv hfv
        simp only [aiDiscloseLoop, hc, Bool.false_eq_true, if_false] at hfv ⊢
        exact ih.2 fv hfv

/-- Characterization of the admin disclosure loop: the output is exactly the
consent-flag filter of the requested fields paired with the unmodified
stored values. -/
theorem adminDiscloseLoop_eq (ed : List (String × Json)) (mapping : List (String × Bool)) :
    ∀ fields : List String,
      adminDiscloseLoop ed mapping fields =
        ((fields.filter (fieldConsentGet mapping)).map (fun f => (f, dataSub ed f)),
          fields.filter (fieldConsentGet mapping)) := by
  intro fields
  induction fields with
  | nil => rfl
  | cons field rest ih =>
    by_cases hc : fieldConsentGet mapping field
    · simp [adminDiscloseLoop, hc, List.filter, ih]
    · simp [adminDiscloseLoop, hc, List.filter, ih]

/-- Claim C4: for automated-class (AI) disclosure requests, a false
automated-processing consent flag denies every requested field with
classification `denied`; with the flag true, only flight- and
hotel-preference fields can be disclosed, and every disclosed value is
the anonymization of the stored value, in which the frequent-flyer and
loyalty-program collections are replaced by their element counts, never
their literal values. -/
theorem claim_C4 (now : Nat) (employee_id : String) (requested_fields : List String)
    (client_id : String) (consent_storage : List (String × StoredConsent))
    (ed : List (String × Json)) (cr : StoredConsent)
    (hemp : alistGet sample_employee_data employee_id = some ed)
    (hcr : alistGet consent_storage employee_id = some cr)
    (hactive : cr.active = true)
    (hexp : ¬ cr.expires_at < now)
    (hai : strContainsAI client_id = true) :
    (cr.consent_settings.ai_processing_consent = false →
      get_employee_travel_data_core now employee_id requested_fields client_id
          consent_storage =
        .ok { employee_id := employee_id, data_available := false,
              consent_status := "active", last_updated := cr.updated_at,
              travel_preferences := none, disclosed_fields := [],
              data_classification := "denied" })
    ∧ (∀ out, get_employee_travel_data_core now employee_id requested_fields client_id
          consent_storage = .ok out →
        (∀ f ∈ out.disclosed_fields,
          f = "flight_preferences" ∨ f = "hotel_preferences")
        ∧ ∀ dd, out.travel_preferences = some dd → ∀ fv ∈ dd,
            (fv.1 = "flight_preferences" ∨ fv.1 = "hotel_preferences")
            ∧ fv.2 = anonymize_for_ai (dataSub ed fv.1)
            ∧ anonValueOK (dataSub ed fv.1) fv.2) := by
  have hreq : derive_requester_type client_id = "ai" := by
    simp [derive_requester_type, hai]
  by_cases haiC : cr.consent_settings.ai_processing_consent
  · -- flag true: the AI disclosure loop runs
    have hcore : get_employee_travel_data_core now employee_id requested_fields client_id
        consent_storage =
        .ok { employee_id := employee_id,
              data_available := (aiDiscloseLoop ed
                (field_consent_mapping cr.consent_settings) requested_fields).2.length > 0,
              consent_status := "active", last_updated := cr.updated_at,
              travel_preferences := if (aiDiscloseLoop ed
                  (field_consent_mapping cr.consent_settings) requested_fields).1.isEmpty
                then none
                else some (aiDiscloseLoop ed
                  (field_consent_mapping cr.consent_settings) requested_fields).1,
              disclosed_fields := (aiDiscloseLoop ed
                (field_consent_mapping cr.consent_settings) requested_fields).2,
              data_classification := if (aiDiscloseLoop ed
                  (field_consent_mapping cr.consent_settings) requested_fields).2.isEmpty
                then "denied" else "anonymized" } := by
      unfold get_employee_travel_data_core
      rw [hemp]
      dsimp only
      rw [hcr]
      dsimp only
      rw [if_neg (by simp [hactive, hexp]), hreq]
      rw [if_pos (by rfl), if_neg (by simp [haiC])]
    constructor
    · intro hfalse
      rw [haiC] at hfalse
      exact absurd hfalse (by simp)
    · intro out hout
      rw [hcore] at hout
      have hout' := Except.ok.inj hout
      subst hout'
      have hspec := aiDiscloseLoop_spec ed (field_consent_mapping cr.consent_settings)
        requested_fields
      constructor
      · intro f hf
        exact (hspec.1 f hf).1
      · intro dd hdd fv hfv
        have hdd' : dd = (aiDiscloseLoop ed
            (field_consent_mapping cr.consent_settings) requested_fields).1 := by
          by_cases hne : (aiDiscloseLoop ed
              (field_consent_mapping cr.consent_settings) requested_fields).1.isEmpty
          · simp only [hne, if_pos, if_true] at hdd
            exact absurd hdd (by simp)
          · simp only [hne, Bool.false_eq_true, if_false] at hdd
            exact (Option.some.inj hdd).symm
        subst hdd'
        obtain ⟨hmem, hval⟩ := hspec.2 fv hfv
        refine ⟨(hspec.1 fv.1 hmem).1, hval, ?_⟩
        rw [hval]
        exact anonymize_for_ai_ok (dataSub ed fv.1)
  · -- flag false: everything denied
    have hfalse : cr.consent_settings.ai_processing_consent = false := by
      cases h : cr.consent_settings.ai_processing_consent with
      | true => exact absurd h haiC
      | false => rfl
    have hcore : get_employee_travel_data_core now employee_id requested_fields client_id
        consent_storage =
        .ok { employee_id := employee_id, data_available := false,
              consent_status := "active", last_updated := cr.updated_at,
              travel_preferences := none, disclosed_fields := [],
              data_classification := "denied" } := by
      unfold get_employee_travel_data_core
      rw [hemp]
      dsimp only
      rw [hcr]
      dsimp only
      rw [if_neg (by simp [hactive, hexp]), hreq]
      rw [if_pos (by rfl), if_pos (by simp [hfalse])]
    refine ⟨fun _ => hcore, ?_⟩
    intro out hout
    rw [hcore] at hout
    have hout' := Except.ok.inj hout
    subst hout'
    exact ⟨by intro f hf; simp at hf, by intro dd hdd; simp at hdd⟩

/-- Consent settings of the C4 witness: sharing and AI processing allowed. -/
def aiSettings : ConsentSettings :=
  { share_with_scania := true, share_flight_prefs := true, share_hotel_prefs := true,
    share_accessibility_needs := false, share_emergency_contact := false,
    ai_processing_consent := true, data_retention_days := 365 }

/-- Consent storage of the C4 witness. -/
def aiStorage : List (String × StoredConsent) :=
  [("SE12345", { active := true, expires_at := 1000, updated_at := 2,
                 consent_settings := aiSettings })]

/-- Witness for C4 at a concrete AI request (client id contains "ai"). -/
theorem claim_C4_witness :
    (aiSettings.ai_processing_consent = false →
      get_employee_travel_data_core 10 "SE12345"
          ["flight_preferences", "hotel_preferences", "emergency_contact"]
          "scania-ai-optimizer" aiStorage =
        .ok { employee_id := "SE12345", data_available := false,
              consent_status := "active", last_updated := 2,
              travel_preferences := none, disclosed_fields := [],
              data_classification := "denied" })
    ∧ (∀ out, get_employee_travel_data_core 10 "SE12345"
          ["flight_preferences", "hotel_preferences", "emergency_contact"]
          "scania-ai-optimizer" aiStorage = .ok out →
        (∀ f ∈ out.disclosed_fields,
          f = "flight_preferences" ∨ f = "hotel_preferences")
        ∧ ∀ dd, out.travel_preferences = some dd → ∀ fv ∈ dd,
            (fv.1 = "flight_preferences" ∨ fv.1 = "hotel_preferences")
            ∧ fv.2 = anonymize_for_ai (dataSub sample_employee_record fv.1)
            ∧ anonValueOK (dataSub sample_employee_record fv.1) fv.2) :=
  claim_C4 10 "SE12345" ["flight_preferences", "hotel_preferences", "emergency_contact"]
    "scania-ai-optimizer" aiStorage sample_employee_record
    { active := true, expires_at := 1000, updated_at := 2, consent_settings := aiSettings }
    rfl rfl rfl (by decide) (by decide)

/-- The admin-branch disclosed-field partition: the requested fields whose
mapped consent flag is true. -/
def adminDisclosedFields (cs : ConsentSettings) (requested_fields : List String) :
    List String :=
  requested_fields.filter (fieldConsentGet (field_consent_mapping cs))

/-- Consent settings of the C5 scenario: flight preference consent true,
hotel consent false. -/
def scenarioSettings : ConsentSettings :=
  { share_with_scania := false, share_flight_prefs := true, share_hotel_prefs := false,
    share_accessibility_needs := false, share_emergency_contact := false,
    ai_processing_consent := false, data_retention_days := 365 }

/-- Consent storage of the C5 scenario. -/
def scenarioStorage : List (String × StoredConsent) :=
  [("SE12345", { active := true, expires_at := 1000, updated_at := 1,
                 consent_settings := scenarioSettings })]

/-- Claim C5: for admin-class requests, each requested field mapped to a
known category is disclosed, unmodified, exactly when that category's
consent flag is true, unmapped fields are denied, the classification is
`full` as soon as anything is disclosed; and in the concrete scenario —
flight consent true, hotel consent false, request for flight and hotel
preferences — the partition is disclosed `flight_preferences`, denied
`hotel_preferences`, classification `full`. -/
theorem claim_C5 (now : Nat) (employee_id : String) (requested_fields : List String)
    (client_id : String) (consent_storage : List (String × StoredConsent))
    (ed : List (String × Json)) (cr : StoredConsent)
    (hemp : alistGet sample_employee_data employee_id = some ed)
    (hcr : alistGet consent_storage employee_id = some cr)
    (hactive : cr.active = true)
    (hexp : ¬ cr.expires_at < now)
    (hadmin : strContainsAI client_id = false) :
    (get_employee_travel_data_core now employee_id requested_fields client_id
        consent_storage =
      .ok { employee_id := employee_id,
            data_available :=
              (adminDisclosedFields cr.consent_settings requested_fields).length > 0,
            consent_status := "active",
            last_updated := cr.updated_at,
            travel_preferences :=
              if (adminDisclosedFields cr.consent_settings requested_fields).isEmpty
              then none
              else some ((adminDisclosedFields cr.consent_settings requested_fields).map
                (fun f => (f, dataSub ed f))),
            disclosed_fields := adminDisclosedFields cr.consent_settings requested_fields,
            data_classification :=
              if (adminDisclosedFields cr.consent_settings requested_fields).isEmpty
              then "denied" else "full" })
    ∧ (∃ out, get_employee_travel_data_core 10 "SE12345"
          ["flight_preferences", "hotel_preferences"]
          "scania-fleet-management" scenarioStorage = .ok out
        ∧ out.disclosed_fields = ["flight_preferences"]
        ∧ (["flight_preferences", "hotel_preferences"].filter
            (fun f => !out.disclosed_fields.contains f)) = ["hotel_preferences"]
        ∧ out.data_classification = "full") := by
  constructor
  · have hreq : derive_requester_type client_id = "admin" := by
      simp [derive_requester_type, hadmin]
    unfold get_employee_travel_data_core
    rw [hemp]
    dsimp only
    rw [hcr]
    dsimp only
    rw [if_neg (by simp [hactive, hexp]), hreq]
    rw [if_neg (by decide)]
    rw [adminDiscloseLoop_eq]
    show Except.ok _ = Except.ok _
    have hmapEmpty :
        ((requested_fields.filter
            (fieldConsentGet (field_consent_mapping cr.consent_settings))).map
          (fun f => (f, dataSub ed f))).isEmpty =
        (requested_fields.filter
            (fieldConsentGet (field_consent_mapping cr.consent_settings))).isEmpty := by
      cases requested_fields.filter
          (fieldConsentGet (field_consent_mapping cr.consent_settings)) <;> rfl
    rw [hmapEmpty]
    rfl
  · exact ⟨_, rfl, rfl, rfl, rfl⟩

/-- Witness for C5 at a concrete admin request (client id without "ai"):
with the scenario settings, the accessibility category is denied while
flight preferences are disclosed unmodified. -/
theorem claim_C5_witness :
    (get_employee_travel_data_core 10 "SE12345"
        ["flight_preferences", "hotel_preferences"] "scania-fleet-management"
        scenarioStorage =
      .ok { employee_id := "SE12345",
            data_available :=
              (adminDisclosedFields scenarioSettings
                ["flight_preferences", "hotel_preferences"]).length > 0,
            consent_status := "active",
            last_updated := 1,
            travel_preferences :=
              if (adminDisclosedFields scenarioSettings
                  ["flight_preferences", "hotel_preferences"]).isEmpty
              then none
              else some ((adminDisclosedFields scenarioSettings
                  ["flight_preferences", "hotel_preferences"]).map
                (fun f => (f, dataSub sample_employee_record f))),
            disclosed_fields :=
              adminDisclosedFields scenarioSettings
                ["flight_preferences", "hotel_preferences"],
            data_classification :=
              if (adminDisclosedFields scenarioSettings
                  ["flight_preferences", "hotel_preferences"]).isEmpty
              then "denied" else "full" })
    ∧ (∃ out, get_employee_travel_data_core 10 "SE12345"
          ["flight_preferences", "hotel_preferences"]
          "scania-fleet-management" scenarioStorage = .ok out
        ∧ out.disclosed_fields = ["flight_preferences"]
        ∧ (["flight_preferences", "hotel_preferences"].filter
            (fun f => !out.disclosed_fields.contains f)) = ["hotel_preferences"]
        ∧ out.data_classification = "full") :=
  claim_C5 10 "SE12345" ["flight_preferences", "hotel_preferences"]
    "scania-fleet-management" scenarioStorage sample_employee_record
    { active := true, expires_at := 1000, updated_at := 1,
      consent_settings := scenarioSettings }
    rfl rfl rfl (by decide) (by decide)

/-- Claim C9: the requester class used by the disclosure decision comes only
from the authenticated token's client id; the caller-declared
`requester_type` payload field of a bulk request is never read, so two
bulk requests identical except for that field produce identical
responses (disclosed fields, data, classification and counts). -/
theorem claim_C9 (now : Nat) (r1 r2 : BulkTravelDataRequest) (client_id : String)
    (consent_storage : List (String × StoredConsent))
    (hids : r1.employee_ids = r2.employee_ids)
    (hfields : r1.requested_fields = r2.requested_fields)
    (_hpurpose : r1.purpose = r2.purpose) :
    get_bulk_travel_data now r1 client_id consent_storage =
      get_bulk_travel_data now r2 client_id consent_storage := by
  unfold get_bulk_travel_data
  rw [hids, hfields]

/-- Bulk request of the C9 witness with self-declared admin type. -/
def bulkReqAdmin : BulkTravelDataRequest :=
  { employee_ids := ["SE12345"], requested_fields := ["flight_preferences"],
    purpose := "fleet optimization", requester_type := "admin" }

/-- The same bulk request self-declaring the AI type. -/
def bulkReqAI : BulkTravelDataRequest :=
  { bulkReqAdmin with requester_type := "ai" }

/-- Witness for C9 at concrete inputs: flipping the self-declared
`requester_type` between "admin" and "ai" leaves the bulk response
unchanged. -/
theorem claim_C9_witness :
    get_bulk_travel_data 10 bulkReqAdmin "scania-fleet-management" scenarioStorage =
      get_bulk_travel_data 10 bulkReqAI "scania-fleet-management" scenarioStorage :=
  claim_C9 10 bulkReqAdmin bulkReqAI "scania-fleet-management" scenarioStorage rfl rfl rfl

/-! ## Claim C6: the hash-linked preferences store -/

/-- Looking up the upserted key returns the upserted data. -/
theorem prefsLookup_upsert (tbl : PrefsTable CT) (e h : String) (c : CT) :
    prefsLookup (prefsUpsert tbl e h c) e h = some c := by
  unfold prefsUpsert
  cases hfind : tbl.find? (fun row => row.1.1 == e && row.1.2 == h) with
  | none =>
    simp only [hfind, Option.isSome_none, Bool.false_eq_true, if_false]
    unfold prefsLookup
    rw [List.find?_append, hfind]
    simp [List.find?]
  | some row =>
    simp only [hfind, Option.isSome_some, if_pos, if_true]
    unfold prefsLookup
    have hmap : ∀ l : PrefsTable CT,
        (l.map (fun row => if row.1.1 == e && row.1.2 == h then ((e, h), c) else row)).find?
          (fun row => row.1.1 == e && row.1.2 == h) =
          (l.find? (fun row => row.1.1 == e && row.1.2 == h)).map
            (fun _ => ((e, h), c)) := by
      intro l
      induction l with
      | nil => rfl
      | cons row' rest ih =>
        by_cases hrow : row'.1.1 == e && row'.1.2 == h
        · simp [List.find?, hrow]
        · simp only [List.map_cons, List.find?, hrow, Bool.false_eq_true, if_false,
            cond_false]
          simpa [hrow] using ih
    rw [hmap, hfind]
    rfl

/-- Claim C6: (round trip) retrieving a stored payload under the same key
returns the original payload; and `verify_preferences_integrity` reports
false instead of raising, both when the stored ciphertext is not a valid
encryption under the derived key (Fernet rejects any altered token) and
when decryption succeeds but the recomputed content hash of the decrypted
payload differs from the stored hash. -/
theorem claim_C6 :
    (∀ (Payload Key PT CT : Type) (env : PrefsCrypto Payload Key PT CT)
        (employee_id : String) (p : Payload) (employee_key : String) (tbl : PrefsTable CT),
      retrieve_encrypted_preferences env employee_id
          (store_encrypted_preferences env employee_id p employee_key tbl).1 employee_key
          (store_encrypted_preferences env employee_id p employee_key tbl).2 = .ok (some p))
    ∧ (∀ (Payload Key PT CT : Type) (env : PrefsCrypto Payload Key PT CT)
        (employee_id preferences_hash employee_key : String) (tbl : PrefsTable CT) (c : CT),
      prefsLookup tbl employee_id preferences_hash = some c →
      (∀ m : PT, c ≠ env.fernetEncrypt (env.kdfDerive employee_key) m) →
      (verify_preferences_integrity env employee_id preferences_hash employee_key
        tbl).valid = false)
    ∧ (∀ (Payload Key PT CT : Type) (env : PrefsCrypto Payload Key PT CT)
        (employee_id preferences_hash employee_key : String) (tbl : PrefsTable CT)
        (q : Payload),
      prefsLookup tbl employee_id preferences_hash =
        some (env.fernetEncrypt (env.kdfDerive employee_key) (env.dumps q)) →
      env.generate_preferences_hash q ≠ preferences_hash →
      (verify_preferences_integrity env employee_id preferences_hash employee_key
        tbl).valid = false) := by
  refine ⟨?_, ?_, ?_⟩
  · intro Payload Key PT CT env employee_id p employee_key tbl
    unfold store_encrypted_preferences retrieve_encrypted_preferences
    rw [prefsLookup_upsert]
    dsimp only
    unfold encrypt_preferences decrypt_preferences
    rw [env.decrypt_encrypt]
    rw [show ((Except.ok (env.dumps p) : Except String PT).bind env.loads) =
      env.loads (env.dumps p) from rfl, env.loads_dumps]
    rfl
  · intro Payload Key PT CT env employee_id preferences_hash employee_key tbl c hlook hne
    unfold verify_preferences_integrity retrieve_encrypted_preferences
    rw [hlook]
    dsimp only
    unfold decrypt_preferences
    cases hdec : env.fernetDecrypt (env.kdfDerive employee_key) c with
    | ok m => exact absurd (env.decrypt_auth _ _ _ hdec) (hne m)
    | error e => rfl
  · intro Payload Key PT CT env employee_id preferences_hash employee_key tbl q hlook hne
    unfold verify_preferences_integrity retrieve_encrypted_preferences
    rw [hlook]
    dsimp only
    unfold decrypt_preferences
    rw [env.decrypt_encrypt]
    rw [show ((Except.ok (env.dumps q) : Except String PT).bind env.loads) =
      env.loads (env.dumps q) from rfl, env.loads_dumps]
    show (env.generate_preferences_hash q == preferences_hash) = false
    simp [hne]

/-- A concrete instantiation of the external crypto contracts for the C6
witness: payloads and plaintexts are numbers, the cipher tags a message
with `some` and rejects `none`, the content hash is decimal rendering. -/
def toyCrypto : PrefsCrypto Nat Unit Nat (Option Nat) :=
  { generate_preferences_hash := fun p => toString p
    kdfDerive := fun _ => ()
    dumps := fun p => p
    loads := fun m => .ok m
    fernetEncrypt := fun _ m => some m
    fernetDecrypt := fun _ c =>
      match c with
      | some m => .ok m
      | none => .error "InvalidToken"
    loads_dumps := fun _ => rfl
    decrypt_encrypt := fun _ _ => rfl
    decrypt_auth := by
      intro k c m hc
      cases c with
      | some m2 =>
        have hm := Except.ok.inj hc
        simp [hm]
      | none => exact absurd hc (by simp) }

/-- Witness for C6 at concrete inputs: a round trip through the store, a
verify on a tampered (invalid) token, and a verify on a valid token whose
recomputed hash mismatches. -/
theorem claim_C6_witness :
    retrieve_encrypted_preferences toyCrypto "emp"
        (store_encrypted_preferences toyCrypto "emp" 7 "key" []).1 "key"
        (store_encrypted_preferences toyCrypto "emp" 7 "key" []).2 = .ok (some 7)
    ∧ (verify_preferences_integrity toyCrypto "emp" "7" "key"
        [(("emp", "7"), none)]).valid = false
    ∧ (verify_preferences_integrity toyCrypto "emp" "0" "key"
        [(("emp", "0"), some 3)]).valid = false :=
  ⟨claim_C6.1 Nat Unit Nat (Option Nat) toyCrypto "emp" 7 "key" [],
   claim_C6.2.1 Nat Unit Nat (Option Nat) toyCrypto "emp" "7" "key"
     [(("emp", "7"), none)] none (by decide) (fun m h => Option.noConfusion h),
   claim_C6.2.2 Nat Unit Nat (Option Nat) toyCrypto "emp" "0" "key"
     [(("emp", "0"), some 3)] 3 (by decide) (by decide)⟩

/-! ## Claim C8: at most one active master card per employee -/

/-- The single-active-card invariant over a card table. -/
def mcInvariant (db : List MasterCard) : Prop :=
  ∀ aid : String, activeCardCount aid db ≤ 1

/-- Every master-card endpoint invocation preserves the single-active-card
invariant. -/
theorem mcInvariant_applyMcOp (db : List MasterCard) (op : McOp)
    (h : mcInvariant db) : mcInvariant (applyMcOp db op) := by
  cases op with
  | create now newId card_data employee_aid =>
    intro aid
    unfold applyMcOp create_master_card
    dsimp only
    by_cases hmatch : card_data.employeeAid ≠ employee_aid
    · rw [if_pos hmatch]
      exact h aid
    · rw [if_neg hmatch]
      cases hfind : db.find? (isActiveCardOf employee_aid) with
      | some c => exact h aid
      | none =>
        have heq : card_data.employeeAid = employee_aid := by
          by_contra hne
          exact hmatch hne
        show activeCardCount aid (db ++ [newMasterCard now newId card_data]) ≤ 1
        unfold activeCardCount
        rw [List.filter_append]
        by_cases haid : aid = employee_aid
        · subst haid
          have hnil : db.filter (isActiveCardOf aid) = [] := by
            rw [List.filter_eq_nil_iff]
            intro x hx
            have hfx := List.find?_eq_none.mp hfind x hx
            simpa using hfx
          rw [hnil]
          by_cases hp : isActiveCardOf aid (newMasterCard now newId card_data) <;>
            simp [List.filter, hp]
        · have hne2 : ¬ employee_aid = aid := fun h' => haid h'.symm
          have hp : isActiveCardOf aid (newMasterCard now newId card_data) = false := by
            simp [isActiveCardOf, newMasterCard, heq, hne2]
          simp only [List.filter, hp, cond_false, List.filter_nil, List.append_nil]
          exact h aid
  | read now e r =>
    intro aid
    unfold applyMcOp get_employee_master_card
    dsimp only
    by_cases hacc : e ≠ r
    · rw [if_pos hacc]
      exact h aid
    · rw [if_neg hacc]
      cases hfind : db.find? (isActiveCardOf e) with
      | none => exact h aid
      | some c =>
        show activeCardCount aid (updateFirst (isActiveCardOf e) (stampAccess now) db) ≤ 1
        unfold activeCardCount
        rw [length_filter_updateFirst_eq (isActiveCardOf aid) (isActiveCardOf e)
          (stampAccess now) (fun x => rfl) db]
        exact h aid
  | update now e r u =>
    intro aid
    unfold applyMcOp update_employee_master_card
    dsimp only
    by_cases hacc : e ≠ r
    · rw [if_pos hacc]
      exact h aid
    · rw [if_neg hacc]
      cases hfind : db.find? (isActiveCardOf e) with
      | none => exact h aid
      | some c =>
        show activeCardCount aid
          (updateFirst (isActiveCardOf e) (applyCardUpdates now u) db) ≤ 1
        unfold activeCardCount
        rw [length_filter_updateFirst_eq (isActiveCardOf aid) (isActiveCardOf e)
          (applyCardUpdates now u) (fun x => rfl) db]
        exact h aid
  | delete now e r =>
    intro aid
    unfold applyMcOp delete_employee_master_card
    dsimp only
    by_cases hacc : e ≠ r
    · rw [if_pos hacc]
      exact h aid
    · rw [if_neg hacc]
      cases hfind : db.find? (isActiveCardOf e) with
      | none => exact h aid
      | some c =>
        show activeCardCount aid
          (updateFirst (isActiveCardOf e) (deactivateCard now) db) ≤ 1
        unfold activeCardCount
        calc ((updateFirst (isActiveCardOf e) (deactivateCard now) db).filter
              (isActiveCardOf aid)).length
            ≤ (db.filter (isActiveCardOf aid)).length :=
              length_filter_updateFirst_le (isActiveCardOf aid) (isActiveCardOf e)
                (deactivateCard now)
                (fun x hx => by simp [isActiveCardOf, deactivateCard] at hx) db
          _ ≤ 1 := h aid

/-- The single-active-card invariant holds in every state reachable from a
given invariant-satisfying table. -/
theorem mcInvariant_runMcOps (ops : List McOp) :
    ∀ db : List MasterCard, mcInvariant db → mcInvariant (runMcOps ops db) := by
  induction ops with
  | nil => intro db h; exact h
  | cons op rest ih =>
    intro db h
    exact ih (applyMcOp db op) (mcInvariant_applyMcOp db op h)

/-- Claim C8: a create call for an employee who already holds an active
master card fails with the conflict error and persists nothing, and no
sequence of master-card endpoint invocations starting from the empty
table ever yields two simultaneously active master cards for one
employee. -/
theorem claim_C8 :
    (∀ (now : Nat) (newId : String) (card_data : MasterCardCreate) (employee_aid : String)
        (db : List MasterCard) (c : MasterCard),
      db.find? (isActiveCardOf employee_aid) = some c →
      card_data.employeeAid = employee_aid →
      create_master_card now newId card_data employee_aid db =
        (.error ⟨409, "Master card already exists for this employee"⟩, db))
    ∧ (∀ (ops : List McOp) (aid : String), activeCardCount aid (runMcOps ops []) ≤ 1) := by
  constructor
  · intro now newId card_data employee_aid db c hfind hmatch
    unfold create_master_card
    rw [if_neg (by simp [hmatch]), hfind]
  · intro ops aid
    exact mcInvariant_runMcOps ops [] (by intro a; simp [activeCardCount]) aid

/-- An existing active card for the C8 witness. -/
def mcExisting : MasterCard :=
  { id := "mc-1"
    employee_aid := "EAAAAAAAAAAAAAAAAAAAAAAAAAAAAAAAAAAAAAAAAAAA"
    encrypted_profile_data := "blob1"
    encryption_cipher_qb64 := "cipher1"
    profile_completeness := [("personal", true)]
    profile_version := "1.0"
    credential_said := none
    is_active := true
    created_at := 0
    updated_at := 0
    last_accessed_at := none }

/-- A second create request for the same employee, for the C8 witness. -/
def mcCreateAgain : MasterCardCreate :=
  { employeeAid := "EAAAAAAAAAAAAAAAAAAAAAAAAAAAAAAAAAAAAAAAAAAA"
    encryptedProfileData := "blob2"
    encryptionCipherQb64 := "cipher2"
    profileCompleteness := [("personal", true)]
    profileVersion := "1.0"
    credentialSaid := none }

/-- Witness for C8 at a concrete input: the duplicate create is rejected
with 409 and the table is unchanged. -/
theorem claim_C8_witness :
    create_master_card 5 "mc-2" mcCreateAgain
        "EAAAAAAAAAAAAAAAAAAAAAAAAAAAAAAAAAAAAAAAAAAA" [mcExisting] =
      (.error ⟨409, "Master card already exists for this employee"⟩, [mcExisting]) :=
  claim_C8.1 5 "mc-2" mcCreateAgain "EAAAAAAAAAAAAAAAAAAAAAAAAAAAAAAAAAAAAAAAAAAA"
    [mcExisting] mcExisting (by decide) (by decide)
